import Mathlib

/-!
# Target-window tracker and accessibility cache of `src/lib/windows.c`

A shallow embedding of the Windows backend of the overlay-window addon.

* Window handles, hook handles and COM pointers are natural numbers, `0` being the
  C null pointer.
* Every Win32 / COM call the source makes is a field of an answer record (`WinOS`,
  `UIA`).  One record is one snapshot of the operating system: a callback of the worker
  thread runs against one snapshot, the next callback may run against another.
* `ow_emit_event` (the event sink, implemented by the host binding) is a recorder: it
  appends the event to `Globals.emitted`, together with a copy of `target_info` taken at
  the instant of the call.
-/

namespace OverlayWindow

/-! ## Platform types and constants (from the Windows SDK headers) -/

abbrev HWND := Nat
abbrev HWINEVENTHOOK := Nat
abbrev DWORD := Nat
abbrev LONG := Int
abbrev HRESULT := Int
/-- A COM interface pointer; `0` is the null pointer. -/
abbrev Ptr := Nat
/-- A NUL-terminated byte string, given by its bytes before the terminator. -/
abbrev CString := List Nat
/-- A NUL-terminated UTF-16 string, given by its code units before the terminator. -/
abbrev WString := List Nat

abbrev NULL : Nat := 0

abbrev EVENT_SYSTEM_FOREGROUND : DWORD := 0x0003
abbrev EVENT_SYSTEM_MINIMIZEEND : DWORD := 0x0017
abbrev EVENT_OBJECT_DESTROY : DWORD := 0x8001
abbrev EVENT_OBJECT_LOCATIONCHANGE : DWORD := 0x800B
abbrev EVENT_OBJECT_NAMECHANGE : DWORD := 0x800C
abbrev OBJID_WINDOW : LONG := 0
abbrev CHILDID_SELF : LONG := 0
abbrev ERROR_ACCESS_DENIED : DWORD := 5
abbrev STATE_SYSTEM_FOCUSED : Nat := 0x4
abbrev VT_I4 : Nat := 3
abbrev S_OK : HRESULT := 0

/-- The `FAILED` test of an HRESULT: the sign bit is set. -/
def FAILED (hr : HRESULT) : Bool := decide (hr < 0)

/-- The `SUCCEEDED` test of an HRESULT. -/
def SUCCEEDED (hr : HRESULT) : Bool := decide (0 ≤ hr)

/-! ## `overlay_window.h` -/

inductive ow_event_type
  | OW_ATTACH
  | OW_FOCUS
  | OW_BLUR
  | OW_DETACH
  | OW_FULLSCREEN
  | OW_MOVERESIZE
  deriving DecidableEq

open ow_event_type

structure ow_window_bounds where
  x : Int
  y : Int
  width : Nat
  height : Nat
  deriving DecidableEq

/-- The payload union of `struct ow_event`; `zero` is the zero-initialised union. -/
inductive ow_event_data
  | zero
  | attach (has_access : Int) (is_fullscreen : Int) (bounds : ow_window_bounds)
  | fullscreen (is_fullscreen : Bool)
  | moveresize (bounds : ow_window_bounds)
  deriving DecidableEq

structure ow_event where
  type : ow_event_type
  data : ow_event_data
  deriving DecidableEq

structure ow_edit_controls_result where
  found : Int
  count : Int
  deriving DecidableEq

/-! ## Globals of `windows.c` -/

structure ow_target_window where
  title : CString
  hwnd : HWND
  location_hook : HWINEVENTHOOK
  destroy_hook : HWINEVENTHOOK
  is_focused : Bool
  is_destroyed : Bool
  deriving DecidableEq

/-- One call of `ow_emit_event`: the event handed to the sink and the value of
`target_info` at that instant. -/
structure Emission where
  event : ow_event
  target : ow_target_window
  deriving DecidableEq

/-- The file-scope variables of `windows.c`, and the record of what the sink received. -/
structure Globals where
  foreground_window : HWND
  fg_window_namechange_hook : HWINEVENTHOOK
  target_info : ow_target_window
  g_pAutomation : Ptr
  g_pEditElements0 : Ptr
  g_pEditElements1 : Ptr
  g_editElementsCount : Int
  emitted : List Emission
  deriving DecidableEq

structure RECT where
  left : LONG
  top : LONG
  right : LONG
  bottom : LONG
  deriving DecidableEq

structure POINT where
  x : LONG
  y : LONG
  deriving DecidableEq

/-- Answers of the window manager during one callback. -/
structure WinOS where
  /-- `IsHungAppWindow(hwnd)`. -/
  IsHungAppWindow : HWND → Bool
  /-- `GetWindowTextLengthW(hwnd)`. -/
  GetWindowTextLengthW : HWND → Int
  /-- `GetLastError()` right after `GetWindowTextLengthW(hwnd)`. -/
  GetLastError_textLength : HWND → DWORD
  /-- `GetWindowTextW(hwnd, ..)`: the text copied, `none` when the call returns 0. -/
  GetWindowTextW : HWND → Option WString
  /-- `WideCharToMultiByte(CP_UTF8, ..)`: the UTF-8 bytes, `none` when the call returns 0. -/
  WideCharToMultiByte : WString → Option CString
  /-- `GetClientRect(hwnd, &rect)`, `none` when it returns FALSE. -/
  GetClientRect : HWND → Option RECT
  /-- `ClientToScreen(hwnd, &pt)`, `none` when it returns FALSE. -/
  ClientToScreen : HWND → POINT → Option POINT
  /-- `GetWindowThreadProcessId(hwnd, ..)`: the thread id, 0 on failure. -/
  GetWindowThreadProcessId : HWND → DWORD
  /-- `GetLastError()` right after `PostMessage(hwnd, WM_OVERLAY_UIPI_TEST, 0, 0)`. -/
  GetLastError_postMessage : HWND → DWORD
  /-- `SetWinEventHook(event, event, NULL, hook_proc, 0, thread, ..)`. -/
  SetWinEventHook : DWORD → DWORD → HWINEVENTHOOK
  /-- `GetForegroundWindow()`. -/
  GetForegroundWindow : HWND
  /-- `AccessibleObjectFromEvent(hwnd, OBJID_WINDOW, CHILDID_SELF, ..)`: result and `pAcc`. -/
  AccessibleObjectFromEvent : HWND → HRESULT × Ptr
  /-- `pAcc->get_accState(..)`: result, `varState.vt`, `varState.lVal` (bit pattern). -/
  get_accState : Ptr → HRESULT × Nat × Nat

/-! ## The event sink -/

/-- `ow_emit_event(&e)`: the sink receives `e`. -/
def ow_emit_event (e : ow_event) (g : Globals) : Globals :=
  { g with emitted := g.emitted ++ [⟨e, g.target_info⟩] }

/-- The types of the events of a record, in order of emission. -/
def types (l : List Emission) : List ow_event_type :=
  l.map (fun m => m.event.type)

/-! ## Window snapshot helpers -/

/-- `strcmp`, up to the magnitude of a nonzero result (the C standard fixes its sign only). -/
def strcmp : CString → CString → Int
  | [], [] => 0
  | [], _ :: _ => -1
  | _ :: _, [] => 1
  | a :: as, b :: bs => if a < b then -1 else if b < a then 1 else strcmp as bs

/-- `has_uipi_access`. -/
def has_uipi_access (os : WinOS) (hwnd : HWND) : Bool :=
  os.GetLastError_postMessage hwnd != ERROR_ACCESS_DENIED

/-- `get_title`: `none` is the return value `false`; `some none` is `true` with
`*title = NULL` (a window without text); `some (some t)` is `true` with `*title = t`. -/
def get_title (os : WinOS) (hwnd : HWND) : Option (Option CString) :=
  let titleLength := os.GetWindowTextLengthW hwnd
  if titleLength = 0 then
    if os.GetLastError_textLength hwnd ≠ 0 then none else some none
  else
    match os.GetWindowTextW hwnd with
    | none => none
    | some titleUtf16 =>
      match os.WideCharToMultiByte titleUtf16 with
      | none => none
      | some title => some (some title)

/-- `get_content_bounds`: `none` is the return value `false`. The fields `width` and
`height` are `uint32_t`, so the `LONG` values wrap modulo `2^32`. -/
def get_content_bounds (os : WinOS) (hwnd : HWND) : Option ow_window_bounds :=
  match os.GetClientRect hwnd with
  | none => none
  | some rect =>
    match os.ClientToScreen hwnd ⟨rect.left, rect.top⟩ with
    | none => none
    | some ptClientUL =>
      some ⟨ptClientUL.x, ptClientUL.y, (rect.right % 2 ^ 32).toNat, (rect.bottom % 2 ^ 32).toNat⟩

/-- `MSAA_check_window_focused_state`. -/
def MSAA_check_window_focused_state (os : WinOS) (hwnd : HWND) : Bool :=
  let hr := (os.AccessibleObjectFromEvent hwnd).1
  let pAcc := (os.AccessibleObjectFromEvent hwnd).2
  if hr ≠ S_OK ∨ pAcc = NULL then false
  else
    let hr2 := (os.get_accState pAcc).1
    let vt := (os.get_accState pAcc).2.1
    let lVal := (os.get_accState pAcc).2.2
    if hr2 = S_OK ∧ vt = VT_I4 then decide (lVal &&& STATE_SYSTEM_FOCUSED ≠ 0) else false

/-! ## The tracker -/

/-- `handle_movesize_event(&target_info)`. -/
def handle_movesize_event (os : WinOS) (g : Globals) : Globals :=
  match get_content_bounds os g.target_info.hwnd with
  | some bounds => ow_emit_event ⟨OW_MOVERESIZE, .moveresize bounds⟩ g
  | none => g

/-- Lines 179-231 of `check_and_handle_window`: the title lookup and the attach. -/
def check_and_handle_window_attach (os : WinOS) (hwnd : HWND) (g : Globals) : Globals :=
  match get_title os hwnd with
  | none => g
  | some none => g
  | some (some title) =>
    let is_equal := decide (strcmp title g.target_info.title = 0)
    if !is_equal then g
    else
      -- `UnhookWinEvent` on the two stale hooks when a target is set: no effect on the globals
      let g1 := { g with target_info := { g.target_info with hwnd := hwnd } }
      let threadId := os.GetWindowThreadProcessId g1.target_info.hwnd
      if threadId = 0 then g1
      else
        let g2 := { g1 with target_info := { g1.target_info with
          location_hook := os.SetWinEventHook EVENT_OBJECT_LOCATIONCHANGE threadId } }
        let g3 := { g2 with target_info := { g2.target_info with
          destroy_hook := os.SetWinEventHook EVENT_OBJECT_DESTROY threadId } }
        let has_access : Int := if has_uipi_access os g3.target_info.hwnd then 1 else 0
        match get_content_bounds os g3.target_info.hwnd with
        | some bounds =>
          let g4 := ow_emit_event ⟨OW_ATTACH, .attach has_access (-1) bounds⟩ g3
          let g5 := { g4 with target_info := { g4.target_info with is_focused := true } }
          ow_emit_event ⟨OW_FOCUS, .attach has_access (-1) bounds⟩ g5
        | none =>
          { g3 with target_info := { g3.target_info with hwnd := NULL } }

/-- Lines 156-167 of `check_and_handle_window`: the candidate differs from the tracked
window, so the target is blurred, and detached when its destruction was latched. -/
def check_and_handle_window_release (g : Globals) : Globals :=
  let g1 :=
    if g.target_info.is_focused then
      ow_emit_event ⟨OW_BLUR, .zero⟩
        { g with target_info := { g.target_info with is_focused := false } }
    else g
  if g1.target_info.is_destroyed then
    ow_emit_event ⟨OW_DETACH, .zero⟩
      { g1 with target_info := { g1.target_info with hwnd := NULL, is_destroyed := false } }
  else g1

/-- `check_and_handle_window(hwnd, &target_info)`. The block for a differing candidate has
no `return`, so control falls through to the title lookup. -/
def check_and_handle_window (os : WinOS) (hwnd : HWND) (g : Globals) : Globals :=
  if os.IsHungAppWindow hwnd then g
  else if g.target_info.hwnd ≠ NULL then
    if g.target_info.hwnd ≠ hwnd then
      check_and_handle_window_attach os hwnd (check_and_handle_window_release g)
    else
      if !g.target_info.is_focused then
        ow_emit_event ⟨OW_FOCUS, .zero⟩
          { g with target_info := { g.target_info with is_focused := true } }
      else g
  else check_and_handle_window_attach os hwnd g

/-- `handle_new_foreground(hwnd)`. -/
def handle_new_foreground (os : WinOS) (hwnd : HWND) (g : Globals) : Globals :=
  let g1 := { g with foreground_window := hwnd }
  let g2 := if g1.fg_window_namechange_hook ≠ NULL then
      { g1 with fg_window_namechange_hook := NULL } else g1
  let g3 :=
    if g2.foreground_window ≠ NULL ∧ g2.foreground_window ≠ g2.target_info.hwnd then
      let threadId := os.GetWindowThreadProcessId g2.foreground_window
      { g2 with fg_window_namechange_hook := os.SetWinEventHook EVENT_OBJECT_NAMECHANGE threadId }
    else g2
  check_and_handle_window os g3.foreground_window g3

/-- `hook_proc(hWinEventHook, event, hwnd, idObject, idChild, ..)`. -/
def hook_proc (os : WinOS) (event : DWORD) (hwnd : HWND) (idObject idChild : LONG)
    (g : Globals) : Globals :=
  if event = EVENT_OBJECT_DESTROY then
    if hwnd = g.target_info.hwnd ∧ idObject = OBJID_WINDOW ∧ idChild = CHILDID_SELF then
      check_and_handle_window os NULL
        { g with target_info := { g.target_info with is_destroyed := true } }
    else g
  else if event = EVENT_OBJECT_LOCATIONCHANGE then
    if hwnd = g.target_info.hwnd ∧ idObject = OBJID_WINDOW ∧ idChild = CHILDID_SELF then
      handle_movesize_event os g
    else g
  else if event = EVENT_OBJECT_NAMECHANGE then
    if hwnd = g.foreground_window ∧ idObject = OBJID_WINDOW ∧ idChild = CHILDID_SELF then
      check_and_handle_window os g.foreground_window g
    else g
  else if event = EVENT_SYSTEM_FOREGROUND ∨ event = EVENT_SYSTEM_MINIMIZEEND then
    if os.GetForegroundWindow = hwnd then handle_new_foreground os hwnd g
    else if MSAA_check_window_focused_state os hwnd then handle_new_foreground os hwnd g
    else g
  else g

/-- `foreground_timer_proc`. -/
def foreground_timer_proc (os : WinOS) (g : Globals) : Globals :=
  let system_foreground := os.GetForegroundWindow
  if g.foreground_window ≠ system_foreground ∧
      MSAA_check_window_focused_state os system_foreground then
    handle_new_foreground os system_foreground g
  else g

/-- `hook_thread`, up to its message loop: the first look at the foreground window. The
loop itself is the sequence of callbacks that follows. -/
def hook_thread (os : WinOS) (g : Globals) : Globals :=
  let g1 := { g with foreground_window := os.GetForegroundWindow }
  if g1.foreground_window ≠ NULL then
    let threadId := os.GetWindowThreadProcessId g1.foreground_window
    let g2 := { g1 with
      fg_window_namechange_hook := os.SetWinEventHook EVENT_OBJECT_NAMECHANGE threadId }
    check_and_handle_window os g2.foreground_window g2
  else g1

/-- The globals as initialised at file scope, after `ow_start_hook` stored the title. -/
def initial (title : CString) : Globals :=
  { foreground_window := NULL
    fg_window_namechange_hook := NULL
    target_info :=
      { title := title, hwnd := NULL, location_hook := NULL, destroy_hook := NULL,
        is_focused := false, is_destroyed := false }
    g_pAutomation := NULL
    g_pEditElements0 := NULL
    g_pEditElements1 := NULL
    g_editElementsCount := 0
    emitted := [] }

/-- What the worker thread can be asked to run. -/
inductive Input
  /-- A call of `check_and_handle_window(hwnd, &target_info)`. -/
  | reconcile (hwnd : HWND)
  /-- A WinEvent delivered to `hook_proc`. -/
  | hook (event : DWORD) (hwnd : HWND) (idObject idChild : LONG)
  /-- A tick of the foreground timer. -/
  | timer
  /-- The start of the worker thread. -/
  | start

/-- One callback, run against one snapshot of the window manager. -/
def step (g : Globals) (i : WinOS × Input) : Globals :=
  match i.2 with
  | .reconcile hwnd => check_and_handle_window i.1 hwnd g
  | .hook event hwnd idObject idChild => hook_proc i.1 event hwnd idObject idChild g
  | .timer => foreground_timer_proc i.1 g
  | .start => hook_thread i.1 g

/-- A sequence of callbacks, each with its own snapshot of the window manager. -/
def run (g : Globals) (inputs : List (WinOS × Input)) : Globals :=
  inputs.foldl step g

/-! ## The accessibility control cache -/

/-- Answers of the COM runtime and of UI Automation during one call of the host. -/
structure UIA where
  /-- `CoInitializeEx(NULL, COINIT_APARTMENTTHREADED)`. -/
  CoInitializeEx : HRESULT
  /-- `CoCreateInstance(&CLSID_CUIAutomation, ..)`: result and the pointer stored. -/
  CoCreateInstance : HRESULT × Ptr
  /-- `ElementFromHandle(hwnd, &pWindowElement)`. -/
  ElementFromHandle : HWND → HRESULT × Ptr
  /-- `CreatePropertyCondition(UIA_ControlTypePropertyId, 50004, &pCondition)`. -/
  CreatePropertyCondition : HRESULT × Ptr
  /-- `pWindowElement->FindAll(TreeScope_Descendants, pCondition, &pFoundElements)`. -/
  FindAll : Ptr → Ptr → HRESULT × Ptr
  /-- `pFoundElements->get_Length(&length)`. -/
  get_Length : Ptr → HRESULT × Int
  /-- `pFoundElements->GetElement(i, &element)`. -/
  GetElement : Ptr → Int → HRESULT × Ptr
  /-- `element->GetCurrentPatternAs(UIA_ValuePatternId, .., &pValuePattern)`. -/
  GetCurrentPatternAs : Ptr → HRESULT × Ptr
  /-- `MultiByteToWideChar(CP_UTF8, ..)`: the UTF-16 text, `none` when the call returns 0. -/
  MultiByteToWideChar : CString → Option WString
  /-- Whether `malloc` of the given size returns a non-null block. -/
  malloc : Int → Bool
  /-- `pValuePattern->SetValue(bstr)`. -/
  SetValue : Ptr → WString → HRESULT
  /-- `pValuePattern->get_CurrentValue(&bstr)`: result and the string, `none` for NULL. -/
  get_CurrentValue : Ptr → HRESULT × Option WString
  /-- `WideCharToMultiByte(CP_UTF8, ..)`: the UTF-8 bytes, `none` when the call returns 0. -/
  WideCharToMultiByte : WString → Option CString

/-- Read of `g_pEditElements[i]`; the array has the two slots 0 and 1. -/
def g_pEditElements (g : Globals) (i : Int) : Ptr :=
  if i = 0 then g.g_pEditElements0 else if i = 1 then g.g_pEditElements1 else NULL

/-- Write of `g_pEditElements[i]`. -/
def set_g_pEditElements (i : Int) (p : Ptr) (g : Globals) : Globals :=
  if i = 0 then { g with g_pEditElements0 := p }
  else if i = 1 then { g with g_pEditElements1 := p }
  else g

/-- `init_ui_automation`: the result and the globals. -/
def init_ui_automation (uia : UIA) (g : Globals) : HRESULT × Globals :=
  if g.g_pAutomation ≠ NULL then (S_OK, g)
  else
    let hr := uia.CoInitializeEx
    if FAILED hr then (hr, g)
    else (uia.CoCreateInstance.1, { g with g_pAutomation := uia.CoCreateInstance.2 })

/-- The body of the loop of lines 481-486 of `ow_find_edit_controls`. -/
def ow_find_edit_controls_store_one (uia : UIA) (pFoundElements : Ptr) (g : Globals)
    (i : Nat) : Globals :=
  let hr := (uia.GetElement pFoundElements i).1
  set_g_pEditElements i (if FAILED hr then NULL else (uia.GetElement pFoundElements i).2) g

/-- The loop of lines 481-486 of `ow_find_edit_controls`, for `i` from 0 while
`i < g_editElementsCount`. -/
def ow_find_edit_controls_store (uia : UIA) (pFoundElements : Ptr) (g : Globals) : Globals :=
  (List.range g.g_editElementsCount.toNat).foldl
    (ow_find_edit_controls_store_one uia pFoundElements) g

/-- `ow_find_edit_controls`: the result and the globals. -/
def ow_find_edit_controls (uia : UIA) (g : Globals) : ow_edit_controls_result × Globals :=
  let result : ow_edit_controls_result := ⟨0, 0⟩
  if g.target_info.hwnd = NULL then (result, g)
  else
    let hr := (init_ui_automation uia g).1
    let g1 := (init_ui_automation uia g).2
    if FAILED hr then (result, g1)
    else
      -- the two cached elements are released and the cache is emptied
      let g2 := { g1 with g_pEditElements0 := NULL, g_pEditElements1 := NULL,
                          g_editElementsCount := 0 }
      let hr3 := (uia.ElementFromHandle g2.target_info.hwnd).1
      let pWindowElement := (uia.ElementFromHandle g2.target_info.hwnd).2
      if FAILED hr3 ∨ pWindowElement = NULL then (result, g2)
      else
        let hr4 := uia.CreatePropertyCondition.1
        let pCondition := uia.CreatePropertyCondition.2
        if SUCCEEDED hr4 ∧ pCondition ≠ NULL then
          let hr5 := (uia.FindAll pWindowElement pCondition).1
          let pFoundElements := (uia.FindAll pWindowElement pCondition).2
          if SUCCEEDED hr5 ∧ pFoundElements ≠ NULL then
            let hr6 := (uia.get_Length pFoundElements).1
            let length := (uia.get_Length pFoundElements).2
            if SUCCEEDED hr6 then
              let g3 := { g2 with g_editElementsCount := if length > 2 then 2 else length }
              (⟨1, length⟩, ow_find_edit_controls_store uia pFoundElements g3)
            else (result, g2)
          else (result, g2)
        else (result, g2)

/-- `ow_input_text_to_edit(edit_index, text)`; `text = none` is the null pointer. -/
def ow_input_text_to_edit (uia : UIA) (edit_index : Int) (text : Option CString)
    (g : Globals) : Int :=
  if edit_index < 0 ∨ edit_index ≥ g.g_editElementsCount ∨
      g_pEditElements g edit_index = NULL ∨ text = none then 0
  else
    let hr := (uia.GetCurrentPatternAs (g_pEditElements g edit_index)).1
    let pValuePattern := (uia.GetCurrentPatternAs (g_pEditElements g edit_index)).2
    if FAILED hr ∨ pValuePattern = NULL then 0
    else
      match uia.MultiByteToWideChar (text.getD []) with
      | none => 0
      | some wide_text =>
        if !uia.malloc ((wide_text.length + 1) * 2) then 0
        else
          let hr2 := uia.SetValue pValuePattern wide_text
          if SUCCEEDED hr2 then 1 else 0

/-- `ow_get_text_from_edit(edit_index, buffer, buffer_size)`: the return value and what was
written to `buffer`; `buffer = false` is the null pointer. -/
def ow_get_text_from_edit (uia : UIA) (edit_index : Int) (buffer : Bool) (buffer_size : Int)
    (g : Globals) : Int × Option CString :=
  if edit_index < 0 ∨ edit_index ≥ g.g_editElementsCount ∨
      g_pEditElements g edit_index = NULL ∨ buffer = false ∨ buffer_size ≤ 0 then (0, none)
  else
    let hr := (uia.GetCurrentPatternAs (g_pEditElements g edit_index)).1
    let pValuePattern := (uia.GetCurrentPatternAs (g_pEditElements g edit_index)).2
    if FAILED hr ∨ pValuePattern = NULL then (0, none)
    else
      let hr2 := (uia.get_CurrentValue pValuePattern).1
      match (uia.get_CurrentValue pValuePattern).2 with
      | some value =>
        if SUCCEEDED hr2 then
          match uia.WideCharToMultiByte value with
          | some utf8 =>
            let utf8_len : Int := utf8.length + 1
            if utf8_len > 0 ∧ utf8_len ≤ buffer_size then (1, some utf8) else (0, none)
          | none => (0, none)
        else (0, none)
      | none => (0, none)

/-! ## Vocabulary of the specification -/

/-- What Windows answers for the null handle, which designates no window: it is not a hung
window, its text length is 0 with a nonzero last error (`ERROR_INVALID_WINDOW_HANDLE`), and
it has no client rectangle. -/
def WinOS.null_is_no_window (os : WinOS) : Prop :=
  os.IsHungAppWindow NULL = false ∧ os.GetWindowTextLengthW NULL = 0 ∧
    os.GetLastError_textLength NULL ≠ 0 ∧ os.GetClientRect NULL = none

/-- Reading an event stream from the left, starting with `o`: is there, at the end, a FOCUS
that no later BLUR or ATTACH has followed. -/
def focus_pending : Bool → List ow_event_type → Bool
  | o, [] => o
  | _, OW_FOCUS :: l => focus_pending true l
  | _, OW_BLUR :: l => focus_pending false l
  | _, OW_ATTACH :: l => focus_pending false l
  | o, OW_DETACH :: l => focus_pending o l
  | o, OW_FULLSCREEN :: l => focus_pending o l
  | o, OW_MOVERESIZE :: l => focus_pending o l

/-- Reading an event stream from the left, starting with `o`: no FOCUS arrives while an
earlier FOCUS is still pending. -/
def focus_alternates : Bool → List ow_event_type → Bool
  | _, [] => true
  | o, OW_FOCUS :: l => !o && focus_alternates true l
  | _, OW_BLUR :: l => focus_alternates false l
  | _, OW_ATTACH :: l => focus_alternates false l
  | o, OW_DETACH :: l => focus_alternates o l
  | o, OW_FULLSCREEN :: l => focus_alternates o l
  | o, OW_MOVERESIZE :: l => focus_alternates o l

/-- The two-tier Focus Validator in the words of the specification (section 4.2), for a
window `hwnd` believed to be the new foreground: tier (a) trusts the current-foreground
query of the OS when it agrees with `hwnd`; otherwise tier (b) asks whether the accessible
root of `hwnd` reports the focused state. -/
def spec_focus_validator (os : WinOS) (hwnd : HWND) : Bool :=
  if os.GetForegroundWindow = hwnd then true else MSAA_check_window_focused_state os hwnd

/-- The timer tick in the words of the specification (section 4.3): if the current
foreground of the system differs from the last-known foreground and passes the Focus
Validator, it is treated as a foreground-change notification. -/
def spec_timer_tick (os : WinOS) (g : Globals) : Globals :=
  if g.foreground_window ≠ os.GetForegroundWindow ∧
      spec_focus_validator os os.GetForegroundWindow then
    handle_new_foreground os os.GetForegroundWindow g
  else g

/-! ## A concrete desktop, for the worked scenarios -/

/-- The bytes of "Target". -/
def title_Target : CString := [84, 97, 114, 103, 101, 116]

/-- The bytes of "Other". -/
def title_Other : CString := [79, 116, 104, 101, 114]

/-- A desktop with four windows: 1 is titled "Other", 2 and 3 are titled "Target", 4 has
no text. Window `fg` is the foreground window. Every other handle is invalid. -/
def desktop (fg : HWND) : WinOS :=
  { IsHungAppWindow := fun _ => false
    GetWindowTextLengthW := fun h => if h = 1 then 5 else if h = 2 ∨ h = 3 then 6 else 0
    GetLastError_textLength := fun h => if 1 ≤ h ∧ h ≤ 4 then 0 else 1400
    GetWindowTextW := fun h =>
      if h = 1 then some title_Other else if h = 2 ∨ h = 3 then some title_Target else none
    WideCharToMultiByte := fun w => some w
    GetClientRect := fun h => if 1 ≤ h ∧ h ≤ 4 then some ⟨0, 0, 800, 600⟩ else none
    ClientToScreen := fun _ p => some ⟨p.x + 100, p.y + 50⟩
    GetWindowThreadProcessId := fun h => if 1 ≤ h ∧ h ≤ 4 then 40 + h else 0
    GetLastError_postMessage := fun _ => 0
    SetWinEventHook := fun event thread => event + thread
    GetForegroundWindow := fg
    AccessibleObjectFromEvent := fun _ => (S_OK, 7)
    get_accState := fun _ => (S_OK, VT_I4, 0) }

/-- The same desktop at the instant window 2 has lost its thread: the thread query fails
for it while the other queries still answer. -/
def desktop_no_thread (fg : HWND) : WinOS :=
  { desktop fg with GetWindowThreadProcessId := fun h => if h = 2 then 0 else 40 + h }

/-- The same desktop when the accessible root of every window reports the focused state. -/
def desktop_focused (fg : HWND) : WinOS :=
  { desktop fg with get_accState := fun _ => (S_OK, VT_I4, STATE_SYSTEM_FOCUSED) }

/-- An accessibility tree with five edit controls under every window. -/
def five_edits : UIA :=
  { CoInitializeEx := S_OK
    CoCreateInstance := (S_OK, 10)
    ElementFromHandle := fun _ => (S_OK, 20)
    CreatePropertyCondition := (S_OK, 30)
    FindAll := fun _ _ => (S_OK, 40)
    get_Length := fun _ => (S_OK, 5)
    GetElement := fun _ i => (S_OK, 100 + i.toNat)
    GetCurrentPatternAs := fun e => (S_OK, 1000 + e)
    MultiByteToWideChar := fun s => some s
    malloc := fun _ => true
    SetValue := fun _ _ => S_OK
    get_CurrentValue := fun _ => (S_OK, some [104, 105])
    WideCharToMultiByte := fun w => some w }

/-- The reconcile of window `hwnd` on the desktop. -/
def see (hwnd : HWND) : WinOS × Input := (desktop hwnd, .reconcile hwnd)

/-- A validated foreground change to window `hwnd` on the desktop. -/
def foreground (hwnd : HWND) : WinOS × Input :=
  (desktop hwnd, .hook EVENT_SYSTEM_FOREGROUND hwnd OBJID_WINDOW CHILDID_SELF)

/-- A location-change notification for window `hwnd` itself. -/
def moved (hwnd : HWND) : WinOS × Input :=
  (desktop hwnd, .hook EVENT_OBJECT_LOCATIONCHANGE hwnd OBJID_WINDOW CHILDID_SELF)

/-- A destroy notification for window `hwnd` itself; the foreground is then window 1. -/
def destroyed (hwnd : HWND) : WinOS × Input :=
  (desktop 1, .hook EVENT_OBJECT_DESTROY hwnd OBJID_WINDOW CHILDID_SELF)

/-- The globals once window 2 of the desktop came to the foreground: it is tracked and
focused. -/
def tracking_2 : Globals := run (initial title_Target) [foreground 2]

/-- The globals after the edit controls of the tracked window 2 were looked up and window
2 was then destroyed: no target is tracked, the cache still holds two elements. -/
def stale_cache : Globals := run (ow_find_edit_controls five_edits tracking_2).2 [destroyed 2]

/-! ## Basic facts -/

theorem strcmp_eq_zero_iff (a b : CString) : strcmp a b = 0 ↔ a = b := by
  induction a generalizing b with
  | nil => cases b <;> simp [strcmp]
  | cons x xs ih =>
    cases b with
    | nil => simp [strcmp]
    | cons y ys =>
      simp only [strcmp]
      split_ifs with h1 h2
      · simp; omega
      · simp; omega
      · have : x = y := by omega
        simp [ih, this]

theorem attach_no_title (os : WinOS) (hwnd : HWND) (g : Globals)
    (h : get_title os hwnd = none ∨ get_title os hwnd = some none) :
    check_and_handle_window_attach os hwnd g = g := by
  unfold check_and_handle_window_attach
  rcases h with h | h <;> simp [h]

theorem attach_other_title (os : WinOS) (hwnd : HWND) (g : Globals) (t : CString)
    (h : get_title os hwnd = some (some t)) (hne : t ≠ g.target_info.title) :
    check_and_handle_window_attach os hwnd g = g := by
  unfold check_and_handle_window_attach
  simp [h, strcmp_eq_zero_iff, hne]

theorem attach_no_thread (os : WinOS) (hwnd : HWND) (g : Globals)
    (h : get_title os hwnd = some (some g.target_info.title))
    (ht : os.GetWindowThreadProcessId hwnd = 0) :
    check_and_handle_window_attach os hwnd g =
      { g with target_info := { g.target_info with hwnd := hwnd } } := by
  unfold check_and_handle_window_attach
  simp [h, strcmp_eq_zero_iff, ht]

theorem attach_no_bounds (os : WinOS) (hwnd : HWND) (g : Globals)
    (h : get_title os hwnd = some (some g.target_info.title))
    (ht : os.GetWindowThreadProcessId hwnd ≠ 0)
    (hb : get_content_bounds os hwnd = none) :
    check_and_handle_window_attach os hwnd g =
      { g with target_info := { g.target_info with
          hwnd := NULL
          location_hook := os.SetWinEventHook EVENT_OBJECT_LOCATIONCHANGE
            (os.GetWindowThreadProcessId hwnd)
          destroy_hook := os.SetWinEventHook EVENT_OBJECT_DESTROY
            (os.GetWindowThreadProcessId hwnd) } } := by
  unfold check_and_handle_window_attach
  simp [h, strcmp_eq_zero_iff, ht, hb]

theorem attach_ok (os : WinOS) (hwnd : HWND) (g : Globals) (b : ow_window_bounds)
    (h : get_title os hwnd = some (some g.target_info.title))
    (ht : os.GetWindowThreadProcessId hwnd ≠ 0)
    (hb : get_content_bounds os hwnd = some b) :
    check_and_handle_window_attach os hwnd g =
      let t : ow_target_window := { g.target_info with
          hwnd := hwnd
          location_hook := os.SetWinEventHook EVENT_OBJECT_LOCATIONCHANGE
            (os.GetWindowThreadProcessId hwnd)
          destroy_hook := os.SetWinEventHook EVENT_OBJECT_DESTROY
            (os.GetWindowThreadProcessId hwnd) }
      let a : Int := if has_uipi_access os hwnd then 1 else 0
      { g with
        target_info := { t with is_focused := true }
        emitted := g.emitted ++ [⟨⟨OW_ATTACH, .attach a (-1) b⟩, t⟩,
          ⟨⟨OW_FOCUS, .attach a (-1) b⟩, { t with is_focused := true }⟩] } := by
  unfold check_and_handle_window_attach
  simp [h, strcmp_eq_zero_iff, ht, hb, ow_emit_event]


theorem release_spec (g : Globals) :
    ∃ R, (check_and_handle_window_release g).emitted = g.emitted ++ R ∧
      types R = (if g.target_info.is_focused then [OW_BLUR] else []) ++
        (if g.target_info.is_destroyed then [OW_DETACH] else []) ∧
      (∀ m ∈ R, m.event.type = OW_DETACH →
        m.target.hwnd = NULL ∧ m.target.is_focused = false ∧ m.target.is_destroyed = false) ∧
      (check_and_handle_window_release g).target_info.is_focused = false ∧
      (check_and_handle_window_release g).target_info.is_destroyed = false ∧
      (check_and_handle_window_release g).target_info.hwnd =
        (if g.target_info.is_destroyed then NULL else g.target_info.hwnd) ∧
      (check_and_handle_window_release g).target_info.title = g.target_info.title := by
  unfold check_and_handle_window_release
  cases hf : g.target_info.is_focused <;> cases hd : g.target_info.is_destroyed <;>
    simp [ow_emit_event, types, hf, hd]

theorem attach_spec (os : WinOS) (hwnd : HWND) (g : Globals) :
    ∃ A, (check_and_handle_window_attach os hwnd g).emitted = g.emitted ++ A ∧
      (check_and_handle_window_attach os hwnd g).target_info.is_destroyed =
        g.target_info.is_destroyed ∧
      (check_and_handle_window_attach os hwnd g).target_info.title = g.target_info.title ∧
      ((A = [] ∧
          (check_and_handle_window_attach os hwnd g).target_info.is_focused =
            g.target_info.is_focused ∧
          ((check_and_handle_window_attach os hwnd g).target_info.hwnd = g.target_info.hwnd ∨
            (check_and_handle_window_attach os hwnd g).target_info.hwnd = NULL ∨
            ((check_and_handle_window_attach os hwnd g).target_info.hwnd = hwnd ∧
              get_title os hwnd = some (some g.target_info.title)))) ∨
        (types A = [OW_ATTACH, OW_FOCUS] ∧
          (check_and_handle_window_attach os hwnd g).target_info.is_focused = true ∧
          (check_and_handle_window_attach os hwnd g).target_info.hwnd = hwnd ∧
          get_title os hwnd = some (some g.target_info.title) ∧
          os.GetWindowThreadProcessId hwnd ≠ 0 ∧
          (get_content_bounds os hwnd).isSome = true)) := by
  rcases ht : get_title os hwnd with _ | _ | t
  · rw [attach_no_title os hwnd g (Or.inl ht)]
    exact ⟨[], by simp⟩
  · rw [attach_no_title os hwnd g (Or.inr ht)]
    exact ⟨[], by simp⟩
  · by_cases he : t = g.target_info.title
    · subst he
      by_cases hth : os.GetWindowThreadProcessId hwnd = 0
      · rw [attach_no_thread os hwnd g ht hth]
        exact ⟨[], by simp⟩
      · rcases hb : get_content_bounds os hwnd with _ | b
        · rw [attach_no_bounds os hwnd g ht hth hb]
          exact ⟨[], by simp⟩
        · rw [attach_ok os hwnd g b ht hth hb]
          exact ⟨_, rfl, by simp [types, hth]⟩
    · rw [attach_other_title os hwnd g t ht he]
      exact ⟨[], by simp⟩

theorem types_append (a b : List Emission) : types (a ++ b) = types a ++ types b := by
  simp [types]

/-- Every path through `check_and_handle_window`, as one statement: what was appended to
the record of the sink, and the facts about the target that the claims below draw on.
Either nothing happened, or the tracked window was focused, or control went through the
release block (`R`) and the attach block (`A`). -/
theorem reconcile_paths (os : WinOS) (hwnd : HWND) (g : Globals) :
    (check_and_handle_window os hwnd g = g) ∨
    (g.target_info.hwnd ≠ NULL ∧ g.target_info.hwnd = hwnd ∧ g.target_info.is_focused = false ∧
      check_and_handle_window os hwnd g =
        ow_emit_event ⟨OW_FOCUS, .zero⟩
          { g with target_info := { g.target_info with is_focused := true } }) ∨
    (os.IsHungAppWindow hwnd = false ∧ g.target_info.hwnd = NULL ∧
      check_and_handle_window os hwnd g = check_and_handle_window_attach os hwnd g) ∨
    (os.IsHungAppWindow hwnd = false ∧ g.target_info.hwnd ≠ NULL ∧ g.target_info.hwnd ≠ hwnd ∧
      check_and_handle_window os hwnd g =
        check_and_handle_window_attach os hwnd (check_and_handle_window_release g)) := by
  unfold check_and_handle_window
  by_cases hh : os.IsHungAppWindow hwnd = true
  · simp [hh]
  · have hh2 : os.IsHungAppWindow hwnd = false := by simpa using hh
    by_cases ht : g.target_info.hwnd = NULL
    · right; right; left
      simp [hh2, ht]
    · by_cases hd : g.target_info.hwnd = hwnd
      · have ht2 : ¬ hwnd = NULL := by rw [← hd]; exact ht
        cases hf : g.target_info.is_focused
        · right; left
          simp [hh2, hd, hf, ht2]
        · left
          simp [hh2, hd, hf, ht2]
      · right; right; right
        simp [hh2, ht, hd]

theorem mem_split_attach (before after : List ow_event_type) :
    OW_ATTACH ∈ before ++ OW_ATTACH :: after := by
  simp

theorem after_attach (P : List ow_event_type) (hP : OW_ATTACH ∉ P)
    (before after : List ow_event_type)
    (h : P ++ [OW_ATTACH, OW_FOCUS] = before ++ OW_ATTACH :: after) : after = [OW_FOCUS] := by
  induction P generalizing before with
  | nil =>
    rcases before with _ | ⟨x, _ | ⟨y, l⟩⟩ <;> simp at h
    exact h.symm
  | cons p P ih =>
    rcases before with _ | ⟨x, l⟩
    · simp at h
      exact absurd h.1 (by intro hp; exact hP (by simp [hp]))
    · simp only [List.cons_append, List.cons.injEq] at h
      exact ih (fun hm => hP (List.mem_cons_of_mem _ hm)) l h.2

/-! ## One reconcile -/

/-- C2, as the code has it: the events of one `check_and_handle_window` are a selection of
BLUR then DETACH (`[]`, `[BLUR]`, `[DETACH]`, `[BLUR, DETACH]`), optionally followed by
`[ATTACH, FOCUS]`, or they are `[FOCUS]` alone. ATTACH is emitted only for a candidate that
is not the tracked window and whose title is the configured one. -/
theorem reconcile_event_order (os : WinOS) (hwnd : HWND) (g : Globals) :
    ∃ evs, (check_and_handle_window os hwnd g).emitted = g.emitted ++ evs ∧
      types evs ∈ [[], [OW_BLUR], [OW_DETACH], [OW_BLUR, OW_DETACH], [OW_FOCUS],
        [OW_ATTACH, OW_FOCUS], [OW_BLUR, OW_ATTACH, OW_FOCUS],
        [OW_DETACH, OW_ATTACH, OW_FOCUS], [OW_BLUR, OW_DETACH, OW_ATTACH, OW_FOCUS]] ∧
      (OW_ATTACH ∈ types evs →
        (g.target_info.hwnd = NULL ∨ g.target_info.hwnd ≠ hwnd) ∧
        get_title os hwnd = some (some g.target_info.title)) := by
  rcases reconcile_paths os hwnd g with h | ⟨_, _, _, h⟩ | ⟨_, hn, h⟩ | ⟨_, _, hd, h⟩
  · exact ⟨[], by simp [h, types]⟩
  · exact ⟨[⟨⟨OW_FOCUS, .zero⟩, { g.target_info with is_focused := true }⟩], by
      simp [h, ow_emit_event, types]⟩
  · obtain ⟨A, hA, -, -, hc⟩ := attach_spec os hwnd g
    refine ⟨A, by rw [h, hA], ?_⟩
    rcases hc with ⟨rfl, -⟩ | ⟨hty, -, -, htitle, -⟩
    · simp [types]
    · simp [hty, htitle, hn]
  · obtain ⟨R, hR, hRt, -, -, -, -, htl⟩ := release_spec g
    obtain ⟨A, hA, -, -, hc⟩ := attach_spec os hwnd (check_and_handle_window_release g)
    refine ⟨R ++ A, by rw [h, hA, hR, List.append_assoc], ?_⟩
    rw [types_append, hRt]
    rcases hc with ⟨rfl, -⟩ | ⟨hty, -, -, htitle, -⟩
    · cases g.target_info.is_focused <;> cases g.target_info.is_destroyed <;> simp [types]
    · rw [htl] at htitle
      cases g.target_info.is_focused <;> cases g.target_info.is_destroyed <;>
        simp [hty, htitle, hd]

/-- C2 as stated fails: with window 2 tracked and focused, the reconcile of window 3,
which carries the same title, emits BLUR and then ATTACH, FOCUS. -/
theorem reconcile_order_counterexample :
    tracking_2.target_info.hwnd = 2 ∧ tracking_2.target_info.is_focused = true ∧
    types ((check_and_handle_window (desktop 3) 3 tracking_2).emitted.drop
      tracking_2.emitted.length) = [OW_BLUR, OW_ATTACH, OW_FOCUS] ∧
    [OW_BLUR, OW_ATTACH, OW_FOCUS] ∉
      [[], [OW_BLUR], [OW_DETACH], [OW_BLUR, OW_DETACH], [OW_FOCUS], [OW_ATTACH, OW_FOCUS]] := by
  decide

/-- C4: whenever one `check_and_handle_window` emits ATTACH, the event it emits right
after is FOCUS, nothing follows that FOCUS, and `is_focused` is true on return. -/
theorem attach_then_focus (os : WinOS) (hwnd : HWND) (g : Globals) :
    ∃ evs, (check_and_handle_window os hwnd g).emitted = g.emitted ++ evs ∧
      (∀ before after, types evs = before ++ OW_ATTACH :: after → after = [OW_FOCUS]) ∧
      (OW_ATTACH ∈ types evs →
        (check_and_handle_window os hwnd g).target_info.is_focused = true) := by
  rcases reconcile_paths os hwnd g with h | ⟨_, _, _, h⟩ | ⟨_, _, h⟩ | ⟨_, _, _, h⟩
  · refine ⟨[], by simp [h], ?_, by simp [types]⟩
    intro before after hb
    simp [types] at hb
  · refine ⟨[⟨⟨OW_FOCUS, .zero⟩, { g.target_info with is_focused := true }⟩], by
      simp [h, ow_emit_event], ?_, by simp [types]⟩
    intro before after hb
    exact absurd (hb ▸ mem_split_attach before after) (by simp [types])
  · obtain ⟨A, hA, -, -, hc⟩ := attach_spec os hwnd g
    refine ⟨A, by rw [h, hA], ?_⟩
    rcases hc with ⟨rfl, -⟩ | ⟨hty, hf, -⟩
    · refine ⟨?_, by simp [types]⟩
      intro before after hb
      exact absurd (hb ▸ mem_split_attach before after) (by simp [types])
    · refine ⟨?_, fun _ => by rw [h]; exact hf⟩
      intro before after hb
      rw [hty] at hb
      exact after_attach [] (by simp) before after (by simpa using hb)
  · obtain ⟨R, hR, hRt, -⟩ := release_spec g
    obtain ⟨A, hA, -, -, hc⟩ := attach_spec os hwnd (check_and_handle_window_release g)
    have hP : OW_ATTACH ∉ types R := by rw [hRt]; split_ifs <;> simp
    refine ⟨R ++ A, by rw [h, hA, hR, List.append_assoc], ?_⟩
    rw [types_append]
    rcases hc with ⟨rfl, -⟩ | ⟨hty, hf, -⟩
    · refine ⟨?_, ?_⟩
      · intro before after hb
        exact absurd (hb ▸ mem_split_attach before after) (by simpa [types] using hP)
      · intro hm
        exact absurd hm (by simpa [types] using hP)
    · refine ⟨?_, fun _ => by rw [h]; exact hf⟩
      intro before after hb
      rw [hty] at hb
      exact after_attach (types R) hP before after hb

/-- C5: one `check_and_handle_window` emits DETACH only if the tracked handle was set
before the call, and at the instant of each DETACH the tracked handle is null,
`is_focused` is false and `is_destroyed` is false. -/
theorem detach_clears_target (os : WinOS) (hwnd : HWND) (g : Globals) :
    ∃ evs, (check_and_handle_window os hwnd g).emitted = g.emitted ++ evs ∧
      ∀ m ∈ evs, m.event.type = OW_DETACH →
        g.target_info.hwnd ≠ NULL ∧ m.target.hwnd = NULL ∧
        m.target.is_focused = false ∧ m.target.is_destroyed = false := by
  rcases reconcile_paths os hwnd g with h | ⟨_, _, _, h⟩ | ⟨_, _, h⟩ | ⟨_, ht, _, h⟩
  · exact ⟨[], by simp [h]⟩
  · exact ⟨[⟨⟨OW_FOCUS, .zero⟩, { g.target_info with is_focused := true }⟩], by
      simp [h, ow_emit_event]⟩
  · obtain ⟨A, hA, -, -, hc⟩ := attach_spec os hwnd g
    refine ⟨A, by rw [h, hA], ?_⟩
    intro m hm hd
    exfalso
    rcases hc with ⟨rfl, -⟩ | ⟨hty, -⟩
    · simp at hm
    · have : m.event.type ∈ types A := List.mem_map_of_mem _ hm
      rw [hty, hd] at this
      simp at this
  · obtain ⟨R, hR, -, hsnap, -⟩ := release_spec g
    obtain ⟨A, hA, -, -, hc⟩ := attach_spec os hwnd (check_and_handle_window_release g)
    refine ⟨R ++ A, by rw [h, hA, hR, List.append_assoc], ?_⟩
    intro m hm hd
    rcases List.mem_append.mp hm with hm | hm
    · exact ⟨ht, hsnap m hm hd⟩
    · exfalso
      rcases hc with ⟨rfl, -⟩ | ⟨hty, -⟩
      · simp at hm
      · have : m.event.type ∈ types A := List.mem_map_of_mem _ hm
        rw [hty, hd] at this
        simp at this

/-! ## Callbacks and runs -/

theorem handle_movesize_event_cases (os : WinOS) (g : Globals) :
    (get_content_bounds os g.target_info.hwnd = none ∧ handle_movesize_event os g = g) ∨
    (∃ b, get_content_bounds os g.target_info.hwnd = some b ∧
      handle_movesize_event os g = ow_emit_event ⟨OW_MOVERESIZE, .moveresize b⟩ g) := by
  unfold handle_movesize_event
  rcases hb : get_content_bounds os g.target_info.hwnd with _ | b
  · left; simp
  · right; exact ⟨b, rfl, rfl⟩

/-- `handle_new_foreground` is a reconcile on globals whose target differs in nothing. -/
theorem handle_new_foreground_cases (os : WinOS) (hwnd : HWND) (g : Globals) :
    ∃ g0, handle_new_foreground os hwnd g = check_and_handle_window os hwnd g0 ∧
      g0.emitted = g.emitted ∧ g0.target_info = g.target_info := by
  unfold handle_new_foreground
  simp only
  split_ifs <;> exact ⟨_, rfl, rfl, rfl⟩

/-- Every callback leaves the record and the target alone, or emits one MOVERESIZE, or is
a reconcile on globals whose record, tracked handle, focus flag and title are those of
the call. -/
theorem step_cases (g : Globals) (i : WinOS × Input) :
    ((step g i).emitted = g.emitted ∧ (step g i).target_info = g.target_info) ∨
    (∃ b, step g i = ow_emit_event ⟨OW_MOVERESIZE, .moveresize b⟩ g) ∨
    (∃ hwnd g0, step g i = check_and_handle_window i.1 hwnd g0 ∧
      g0.emitted = g.emitted ∧ g0.target_info.hwnd = g.target_info.hwnd ∧
      g0.target_info.is_focused = g.target_info.is_focused ∧
      g0.target_info.title = g.target_info.title) := by
  obtain ⟨os, inp⟩ := i
  cases inp with
  | reconcile hwnd => exact Or.inr (Or.inr ⟨hwnd, g, rfl, rfl, rfl, rfl, rfl⟩)
  | start =>
    simp only [step, hook_thread]
    split_ifs
    · exact Or.inr (Or.inr ⟨_, _, rfl, rfl, rfl, rfl, rfl⟩)
    · exact Or.inl ⟨rfl, rfl⟩
  | timer =>
    simp only [step, foreground_timer_proc]
    split_ifs
    · obtain ⟨g0, h0, h1, h2⟩ := handle_new_foreground_cases os os.GetForegroundWindow g
      exact Or.inr (Or.inr ⟨_, g0, h0, h1, by rw [h2], by rw [h2], by rw [h2]⟩)
    · exact Or.inl ⟨rfl, rfl⟩
  | hook event hwnd idObject idChild =>
    simp only [step, hook_proc]
    split_ifs
    · exact Or.inr (Or.inr ⟨_, _, rfl, rfl, rfl, rfl, rfl⟩)
    · exact Or.inl ⟨rfl, rfl⟩
    · rcases handle_movesize_event_cases os g with ⟨-, h⟩ | ⟨b, -, h⟩
      · exact Or.inl ⟨by rw [h], by rw [h]⟩
      · exact Or.inr (Or.inl ⟨b, h⟩)
    · exact Or.inl ⟨rfl, rfl⟩
    · exact Or.inr (Or.inr ⟨_, g, rfl, rfl, rfl, rfl, rfl⟩)
    · exact Or.inl ⟨rfl, rfl⟩
    · obtain ⟨g0, h0, h1, h2⟩ := handle_new_foreground_cases os hwnd g
      exact Or.inr (Or.inr ⟨_, g0, h0, h1, by rw [h2], by rw [h2], by rw [h2]⟩)
    · obtain ⟨g0, h0, h1, h2⟩ := handle_new_foreground_cases os hwnd g
      exact Or.inr (Or.inr ⟨_, g0, h0, h1, by rw [h2], by rw [h2], by rw [h2]⟩)
    · exact Or.inl ⟨rfl, rfl⟩
    · exact Or.inl ⟨rfl, rfl⟩

theorem run_cons (g : Globals) (i : WinOS × Input) (l : List (WinOS × Input)) :
    run g (i :: l) = run (step g i) l := rfl

theorem focus_pending_append (o : Bool) (a b : List ow_event_type) :
    focus_pending o (a ++ b) = focus_pending (focus_pending o a) b := by
  induction a generalizing o with
  | nil => rfl
  | cons e a ih => cases e <;> simp [focus_pending, ih]

theorem focus_alternates_append (o : Bool) (a b : List ow_event_type) :
    focus_alternates o (a ++ b) =
      (focus_alternates o a && focus_alternates (focus_pending o a) b) := by
  induction a generalizing o with
  | nil => simp [focus_alternates, focus_pending]
  | cons e a ih => cases e <;> simp [focus_alternates, focus_pending, ih, Bool.and_assoc]

theorem focus_alternates_between (mid post : List ow_event_type)
    (h : focus_alternates true (mid ++ OW_FOCUS :: post) = true) :
    OW_BLUR ∈ mid ∨ OW_ATTACH ∈ mid := by
  induction mid with
  | nil => simp [focus_alternates] at h
  | cons e mid ih =>
    cases e
    · right; simp
    · simp [focus_alternates] at h
    · left; simp
    · rcases ih (by simpa [focus_alternates] using h) with h1 | h1
      · left; exact List.mem_cons_of_mem _ h1
      · right; exact List.mem_cons_of_mem _ h1
    · rcases ih (by simpa [focus_alternates] using h) with h1 | h1
      · left; exact List.mem_cons_of_mem _ h1
      · right; exact List.mem_cons_of_mem _ h1
    · rcases ih (by simpa [focus_alternates] using h) with h1 | h1
      · left; exact List.mem_cons_of_mem _ h1
      · right; exact List.mem_cons_of_mem _ h1

/-- The scanner is sound for the property read off the stream itself. -/
theorem focus_alternates_sound (l before mid post : List ow_event_type)
    (h : focus_alternates false l = true)
    (hl : l = before ++ OW_FOCUS :: (mid ++ OW_FOCUS :: post)) :
    OW_BLUR ∈ mid ∨ OW_ATTACH ∈ mid := by
  subst hl
  rw [focus_alternates_append] at h
  simp only [Bool.and_eq_true] at h
  have h2 := h.2
  simp only [focus_alternates, Bool.and_eq_true] at h2
  exact focus_alternates_between mid post h2.2

/-- One reconcile keeps the stream alternating: a FOCUS is emitted only when none is
pending, and a pending FOCUS means `is_focused`. -/
theorem reconcile_focus_step (os : WinOS) (hwnd : HWND) (g : Globals) (o : Bool)
    (ho : o = true → g.target_info.is_focused = true) :
    ∃ evs, (check_and_handle_window os hwnd g).emitted = g.emitted ++ evs ∧
      focus_alternates o (types evs) = true ∧
      (focus_pending o (types evs) = true →
        (check_and_handle_window os hwnd g).target_info.is_focused = true) := by
  rcases reconcile_paths os hwnd g with h | ⟨_, _, hf, h⟩ | ⟨_, _, h⟩ | ⟨_, _, _, h⟩
  · exact ⟨[], by simp [h], by simp [types, focus_alternates], by
      simpa [types, focus_pending, h] using ho⟩
  · have ho2 : o = false := by
      cases o
      · rfl
      · rw [ho rfl] at hf; cases hf
    subst ho2
    exact ⟨[⟨⟨OW_FOCUS, .zero⟩, { g.target_info with is_focused := true }⟩], by
      simp [h, ow_emit_event], by simp [types, focus_alternates], by
      simp [h, ow_emit_event]⟩
  · obtain ⟨A, hA, -, -, hc⟩ := attach_spec os hwnd g
    refine ⟨A, by rw [h, hA], ?_⟩
    rw [h]
    rcases hc with ⟨rfl, hfa, -⟩ | ⟨hty, hfa, -⟩
    · exact ⟨by simp [types, focus_alternates], by
        simpa [types, focus_pending, hfa] using ho⟩
    · exact ⟨by simp [hty, focus_alternates], fun _ => hfa⟩
  · obtain ⟨R, hR, hRt, -, hRf, -⟩ := release_spec g
    obtain ⟨A, hA, -, -, hc⟩ := attach_spec os hwnd (check_and_handle_window_release g)
    have hRa : focus_alternates o (types R) = true := by
      rw [hRt]; split_ifs <;> simp [focus_alternates]
    have hRp : focus_pending o (types R) = false := by
      rw [hRt]
      by_cases hfg : g.target_info.is_focused = true
      · rw [if_pos hfg]
        split_ifs <;> simp [focus_pending]
      · have : o = false := by
          cases o
          · rfl
          · exact absurd (ho rfl) hfg
        subst this
        rw [if_neg hfg]
        split_ifs <;> simp [focus_pending]
    refine ⟨R ++ A, by rw [h, hA, hR, List.append_assoc], ?_⟩
    rw [h, types_append, focus_alternates_append, focus_pending_append, hRa, hRp]
    rcases hc with ⟨rfl, hfa, -⟩ | ⟨hty, hfa, -⟩
    · exact ⟨by simp [types, focus_alternates], by simp [types, focus_pending]⟩
    · exact ⟨by simp [hty, focus_alternates], fun _ => hfa⟩

/-- The same for every callback. -/
theorem step_focus (g : Globals) (i : WinOS × Input) (o : Bool)
    (ho : o = true → g.target_info.is_focused = true) :
    ∃ evs, (step g i).emitted = g.emitted ++ evs ∧
      focus_alternates o (types evs) = true ∧
      (focus_pending o (types evs) = true → (step g i).target_info.is_focused = true) := by
  rcases step_cases g i with ⟨h, ht⟩ | ⟨b, h⟩ | ⟨hwnd, g0, h, he, -, hf, -⟩
  · exact ⟨[], by simp [h], by simp [types, focus_alternates], by
      simpa [types, focus_pending, ht] using ho⟩
  · exact ⟨[⟨⟨OW_MOVERESIZE, .moveresize b⟩, g.target_info⟩], by simp [h, ow_emit_event], by
      simp [types, focus_alternates], by simpa [types, focus_pending, h, ow_emit_event] using ho⟩
  · obtain ⟨evs, h1, h2, h3⟩ := reconcile_focus_step i.1 hwnd g0 o (by rw [hf]; exact ho)
    exact ⟨evs, by rw [h, h1, he], h2, by rw [h]; exact h3⟩

theorem run_focus (inputs : List (WinOS × Input)) (g : Globals)
    (h1 : focus_alternates false (types g.emitted) = true)
    (h2 : focus_pending false (types g.emitted) = true → g.target_info.is_focused = true) :
    focus_alternates false (types (run g inputs).emitted) = true ∧
    (focus_pending false (types (run g inputs).emitted) = true →
      (run g inputs).target_info.is_focused = true) := by
  induction inputs generalizing g with
  | nil => exact ⟨h1, h2⟩
  | cons i l ih =>
    rw [run_cons]
    obtain ⟨evs, he, ha, hp⟩ := step_focus g i (focus_pending false (types g.emitted)) h2
    apply ih
    · rw [he, types_append, focus_alternates_append, h1, ha]; rfl
    · rw [he, types_append, focus_pending_append]; exact hp

/-- C1: in the event stream of any sequence of callbacks (reconciles, WinEvents of every
kind, timer ticks, the start of the worker, each with its own answers of the window manager) run from the initial
globals, between two FOCUS events there is a BLUR or an ATTACH. -/
theorem focus_never_repeats (title : CString) (inputs : List (WinOS × Input))
    (before mid post : List ow_event_type)
    (h : types (run (initial title) inputs).emitted =
      before ++ OW_FOCUS :: (mid ++ OW_FOCUS :: post)) :
    OW_BLUR ∈ mid ∨ OW_ATTACH ∈ mid :=
  focus_alternates_sound _ before mid post
    (run_focus inputs (initial title) rfl (by simp [initial, types, focus_pending])).1 h

/-- C1 at the run Target, Other, Target: the stream is ATTACH, FOCUS, BLUR, FOCUS. -/
theorem focus_never_repeats_witness :
    types (run (initial title_Target) [see 2, see 1, see 2]).emitted =
        [OW_ATTACH] ++ OW_FOCUS :: ([OW_BLUR] ++ OW_FOCUS :: []) ∧
      (OW_BLUR ∈ [OW_BLUR] ∨ OW_ATTACH ∈ [OW_BLUR]) :=
  ⟨by decide, focus_never_repeats title_Target [see 2, see 1, see 2] [OW_ATTACH] [OW_BLUR] []
    (by decide)⟩

theorem get_title_null (os : WinOS) (h : os.null_is_no_window) : get_title os NULL = none := by
  obtain ⟨-, h1, h2, -⟩ := h
  simp [get_title, h1, h2]

theorem get_content_bounds_null (os : WinOS) (h : os.null_is_no_window) :
    get_content_bounds os NULL = none := by
  obtain ⟨-, -, -, h3⟩ := h
  simp [get_content_bounds, h3]

theorem desktop_null (fg : HWND) : (desktop fg).null_is_no_window := by
  simp [WinOS.null_is_no_window, desktop]

/-- One reconcile keeps `is_focused` within the tracked states, when the null handle has
no title. -/
theorem reconcile_tracked_step (os : WinOS) (hwnd : HWND) (g : Globals)
    (hnull : get_title os NULL = none)
    (hg : g.target_info.is_focused = true → g.target_info.hwnd ≠ NULL) :
    (check_and_handle_window os hwnd g).target_info.is_focused = true →
      (check_and_handle_window os hwnd g).target_info.hwnd ≠ NULL := by
  have key : ∀ g1 : Globals, g1.target_info.is_focused = false →
      (check_and_handle_window_attach os hwnd g1).target_info.is_focused = true →
      (check_and_handle_window_attach os hwnd g1).target_info.hwnd ≠ NULL := by
    intro g1 hf1 hf
    obtain ⟨A, -, -, -, hc⟩ := attach_spec os hwnd g1
    rcases hc with ⟨-, hfa, -⟩ | ⟨-, -, hh, htitle, -⟩
    · rw [hfa, hf1] at hf; cases hf
    · rw [hh]
      intro h0
      rw [h0, hnull] at htitle
      cases htitle
  rcases reconcile_paths os hwnd g with h | ⟨ht, _, _, h⟩ | ⟨_, hn, h⟩ | ⟨_, _, _, h⟩
  · rw [h]; exact hg
  · intro _
    rw [h]
    simpa [ow_emit_event] using ht
  · rw [h]
    apply key
    cases hf : g.target_info.is_focused
    · rfl
    · exact absurd hn (hg hf)
  · rw [h]
    apply key
    obtain ⟨R, -, -, -, hRf, -⟩ := release_spec g
    exact hRf

theorem step_tracked (g : Globals) (i : WinOS × Input) (hnull : get_title i.1 NULL = none)
    (hg : g.target_info.is_focused = true → g.target_info.hwnd ≠ NULL) :
    (step g i).target_info.is_focused = true → (step g i).target_info.hwnd ≠ NULL := by
  rcases step_cases g i with ⟨-, h⟩ | ⟨b, h⟩ | ⟨hwnd, g0, h, -, hh, hf, -⟩
  · rw [h]; exact hg
  · rw [h]; simpa [ow_emit_event] using hg
  · rw [h]
    exact reconcile_tracked_step i.1 hwnd g0 hnull (by rw [hf, hh]; exact hg)

theorem run_tracked (inputs : List (WinOS × Input)) (g : Globals)
    (hos : ∀ i ∈ inputs, i.1.null_is_no_window)
    (hg : g.target_info.is_focused = true → g.target_info.hwnd ≠ NULL) :
    (run g inputs).target_info.is_focused = true → (run g inputs).target_info.hwnd ≠ NULL := by
  induction inputs generalizing g with
  | nil => exact hg
  | cons i l ih =>
    rw [run_cons]
    apply ih
    · intro j hj
      exact hos j (List.mem_cons_of_mem _ hj)
    · exact step_tracked g i (get_title_null i.1 (hos i (List.mem_cons_self _ _))) hg

/-- C10: in every state reached from the initial globals by a sequence of callbacks
(reconciles, WinEvents of every kind, timer ticks), each run against its own answers of
the window manager, `is_focused` is true only if the tracked handle is set. The answers
are arbitrary for windows; for the null handle they are those of Windows. -/
theorem focused_only_while_tracked (title : CString) (inputs : List (WinOS × Input))
    (hos : ∀ i ∈ inputs, i.1.null_is_no_window) :
    (run (initial title) inputs).target_info.is_focused = true →
      (run (initial title) inputs).target_info.hwnd ≠ NULL :=
  run_tracked inputs (initial title) hos (by simp [initial])

/-- C10 at the run Other, Target, moved: the target is focused and the handle is 2. -/
theorem focused_only_while_tracked_witness :
    (∀ i ∈ [foreground 1, foreground 2, moved 2], i.1.null_is_no_window) ∧
      (run (initial title_Target) [foreground 1, foreground 2, moved 2]).target_info.is_focused
        = true ∧
      (run (initial title_Target) [foreground 1, foreground 2, moved 2]).target_info.hwnd
        ≠ NULL :=
  have hos : ∀ i ∈ [foreground 1, foreground 2, moved 2], i.1.null_is_no_window := by
    intro i hi
    simp only [List.mem_cons, List.mem_singleton, List.not_mem_nil, or_false] at hi
    rcases hi with rfl | rfl | rfl <;> exact desktop_null _
  ⟨hos, by decide, focused_only_while_tracked title_Target _ hos (by decide)⟩

/-- Why the focus invariant assumes that the null handle has no title: the code stores the
candidate without a null test, so were the window manager to give the null handle the
configured title, a thread and a client rectangle, a reconcile of the null handle would
set `is_focused` and leave the tracked handle null. -/
theorem focused_untracked_of_titled_null :
    (check_and_handle_window
        { desktop 2 with
          GetWindowTextLengthW := fun _ => 6
          GetWindowTextW := fun _ => some title_Target
          GetWindowThreadProcessId := fun _ => 9
          GetClientRect := fun _ => some ⟨0, 0, 1, 1⟩ }
        NULL (initial title_Target)).target_info.is_focused = true ∧
    (check_and_handle_window
        { desktop 2 with
          GetWindowTextLengthW := fun _ => 6
          GetWindowTextW := fun _ => some title_Target
          GetWindowThreadProcessId := fun _ => 9
          GetClientRect := fun _ => some ⟨0, 0, 1, 1⟩ }
        NULL (initial title_Target)).target_info.hwnd = NULL := by
  decide

/-- C6: handling a location-change notification in `hook_proc` emits MOVERESIZE only if a
target is tracked, the notification is for that window itself, and its content bounds
are obtainable; emitted or not, the tracked handle, `is_focused` and `is_destroyed` (the
whole of `target_info`, and every other variable) are as before. -/
theorem moveresize_frame (os : WinOS) (hwnd : HWND) (idObject idChild : LONG) (g : Globals)
    (hnull : os.null_is_no_window) :
    ∃ evs,
      hook_proc os EVENT_OBJECT_LOCATIONCHANGE hwnd idObject idChild g =
        { g with emitted := g.emitted ++ evs } ∧
      (types evs = [] ∨ types evs = [OW_MOVERESIZE]) ∧
      (OW_MOVERESIZE ∈ types evs →
        g.target_info.hwnd ≠ NULL ∧ hwnd = g.target_info.hwnd ∧
        idObject = OBJID_WINDOW ∧ idChild = CHILDID_SELF ∧
        (get_content_bounds os g.target_info.hwnd).isSome = true) ∧
      (hook_proc os EVENT_OBJECT_LOCATIONCHANGE hwnd idObject idChild g).target_info.hwnd =
        g.target_info.hwnd ∧
      (hook_proc os EVENT_OBJECT_LOCATIONCHANGE hwnd idObject idChild g).target_info.is_focused =
        g.target_info.is_focused ∧
      (hook_proc os EVENT_OBJECT_LOCATIONCHANGE hwnd idObject idChild g).target_info.is_destroyed =
        g.target_info.is_destroyed := by
  have hev : (EVENT_OBJECT_LOCATIONCHANGE : DWORD) ≠ EVENT_OBJECT_DESTROY := by decide
  simp only [hook_proc, if_neg hev, if_pos]
  split_ifs with hc
  · obtain ⟨h1, h2, h3⟩ := hc
    rcases handle_movesize_event_cases os g with ⟨-, h⟩ | ⟨b, hb, h⟩
    · exact ⟨[], by simp [h], by simp [types], by simp [types], by rw [h], by rw [h], by rw [h]⟩
    · refine ⟨[⟨⟨OW_MOVERESIZE, .moveresize b⟩, g.target_info⟩], by simp [h, ow_emit_event],
        by simp [types], ?_, by simp [h, ow_emit_event], by simp [h, ow_emit_event],
        by simp [h, ow_emit_event]⟩
      intro _
      refine ⟨?_, h1, h2, h3, by simp [hb]⟩
      intro h0
      rw [h0, get_content_bounds_null os hnull] at hb
      cases hb
  · exact ⟨[], by simp, by simp [types], by simp [types], rfl, rfl, rfl⟩

/-- C6 at the desktop with window 2 tracked and focused: its location change emits
MOVERESIZE and nothing of the target changes. -/
theorem moveresize_frame_witness :
    (desktop 2).null_is_no_window ∧
    types (hook_proc (desktop 2) EVENT_OBJECT_LOCATIONCHANGE 2 OBJID_WINDOW CHILDID_SELF
      tracking_2).emitted = [OW_ATTACH, OW_FOCUS, OW_MOVERESIZE] ∧
    (hook_proc (desktop 2) EVENT_OBJECT_LOCATIONCHANGE 2 OBJID_WINDOW CHILDID_SELF
      tracking_2).target_info.hwnd = 2 ∧
    (hook_proc (desktop 2) EVENT_OBJECT_LOCATIONCHANGE 2 OBJID_WINDOW CHILDID_SELF
      tracking_2).target_info.is_focused = true ∧
    (hook_proc (desktop 2) EVENT_OBJECT_LOCATIONCHANGE 2 OBJID_WINDOW CHILDID_SELF
      tracking_2).target_info.is_destroyed = false := by
  obtain ⟨evs, -, -, -, h1, h2, h3⟩ :=
    moveresize_frame (desktop 2) 2 OBJID_WINDOW CHILDID_SELF tracking_2 (desktop_null 2)
  exact ⟨desktop_null 2, by decide, h1.trans (by decide), h2.trans (by decide),
    h3.trans (by decide)⟩

/-! ## From the untracked state -/

/-- What a reconcile does from the untracked state, for a candidate that is not hung. -/
theorem reconcile_from_untracked (os : WinOS) (hwnd : HWND) (g : Globals)
    (hu : g.target_info.hwnd = NULL) (hh : os.IsHungAppWindow hwnd = false) :
    ((get_title os hwnd = none ∨ get_title os hwnd = some none ∨
        (∃ t, get_title os hwnd = some (some t) ∧ t ≠ g.target_info.title)) →
      check_and_handle_window os hwnd g = g) ∧
    (get_title os hwnd = some (some g.target_info.title) →
      os.GetWindowThreadProcessId hwnd ≠ 0 →
      (get_content_bounds os hwnd).isSome = true →
      ∃ evs, (check_and_handle_window os hwnd g).emitted = g.emitted ++ evs ∧
        types evs = [OW_ATTACH, OW_FOCUS] ∧
        (check_and_handle_window os hwnd g).target_info.hwnd = hwnd ∧
        (check_and_handle_window os hwnd g).target_info.is_focused = true) := by
  have hc : check_and_handle_window os hwnd g = check_and_handle_window_attach os hwnd g := by
    unfold check_and_handle_window
    simp [hh, hu]
  rw [hc]
  refine ⟨?_, ?_⟩
  · rintro (h | h | ⟨t, h, hne⟩)
    · exact attach_no_title os hwnd g (Or.inl h)
    · exact attach_no_title os hwnd g (Or.inr h)
    · exact attach_other_title os hwnd g t h hne
  · intro ht hth hb
    obtain ⟨b, hb⟩ := Option.isSome_iff_exists.mp hb
    rw [attach_ok os hwnd g b ht hth hb]
    exact ⟨_, rfl, by simp [types], rfl, rfl⟩

/-- C7, as the code has it. From the untracked state and for a candidate that is not hung:
when the title fetch fails, or the window has no text, or its title differs from the
configured one, the reconcile emits nothing and changes nothing; when the window has a
title equal to the configured one and both its thread id and its content bounds are
obtainable, the reconcile records the candidate as the tracked handle, emits exactly
ATTACH then FOCUS, and ends focused. -/
theorem untracked_reconcile (os : WinOS) (hwnd : HWND) (g : Globals)
    (hu : g.target_info.hwnd = NULL) (hh : os.IsHungAppWindow hwnd = false) :
    ((get_title os hwnd = none ∨ get_title os hwnd = some none ∨
        (∃ t, get_title os hwnd = some (some t) ∧ t ≠ g.target_info.title)) →
      check_and_handle_window os hwnd g = g) ∧
    (get_title os hwnd = some (some g.target_info.title) →
      os.GetWindowThreadProcessId hwnd ≠ 0 →
      (get_content_bounds os hwnd).isSome = true →
      ∃ evs, (check_and_handle_window os hwnd g).emitted = g.emitted ++ evs ∧
        types evs = [OW_ATTACH, OW_FOCUS] ∧
        (check_and_handle_window os hwnd g).target_info.hwnd = hwnd ∧
        (check_and_handle_window os hwnd g).target_info.is_focused = true) :=
  reconcile_from_untracked os hwnd g hu hh

/-- C7 at the desktop: window 1 ("Other") changes nothing, window 2 ("Target") is
attached and focused. -/
theorem untracked_reconcile_witness :
    (initial title_Target).target_info.hwnd = NULL ∧
    (desktop 1).IsHungAppWindow 1 = false ∧ (desktop 2).IsHungAppWindow 2 = false ∧
    check_and_handle_window (desktop 1) 1 (initial title_Target) = initial title_Target ∧
    ∃ evs, (check_and_handle_window (desktop 2) 2 (initial title_Target)).emitted =
        (initial title_Target).emitted ++ evs ∧
      types evs = [OW_ATTACH, OW_FOCUS] ∧
      (check_and_handle_window (desktop 2) 2 (initial title_Target)).target_info.hwnd = 2 ∧
      (check_and_handle_window (desktop 2) 2 (initial title_Target)).target_info.is_focused
        = true :=
  ⟨rfl, rfl, rfl,
    (untracked_reconcile (desktop 1) 1 (initial title_Target) rfl rfl).1
      (Or.inr (Or.inr ⟨title_Other, by decide, by decide⟩)),
    (untracked_reconcile (desktop 2) 2 (initial title_Target) rfl rfl).2
      (by decide) (by decide) (by decide)⟩

/-- C7 as stated fails in two ways. Window 2 is not hung, is titled "Target" and has
content bounds, but its thread id is not obtainable: the reconcile emits nothing (and yet
records the handle). Window 4 is not hung, has no text, which equals the configured empty
title, and has content bounds: the reconcile does nothing. -/
theorem untracked_reconcile_counterexample :
    ((desktop_no_thread 2).IsHungAppWindow 2 = false ∧
      get_title (desktop_no_thread 2) 2 = some (some title_Target) ∧
      (get_content_bounds (desktop_no_thread 2) 2).isSome = true ∧
      types (check_and_handle_window (desktop_no_thread 2) 2 (initial title_Target)).emitted
        = [] ∧
      (check_and_handle_window (desktop_no_thread 2) 2 (initial title_Target)).target_info.hwnd
        = 2 ∧
      (check_and_handle_window (desktop_no_thread 2) 2
        (initial title_Target)).target_info.is_focused = false) ∧
    ((desktop 4).IsHungAppWindow 4 = false ∧
      (desktop 4).GetWindowTextLengthW 4 = 0 ∧
      get_title (desktop 4) 4 = some none ∧
      (get_content_bounds (desktop 4) 4).isSome = true ∧
      check_and_handle_window (desktop 4) 4 (initial []) = initial []) := by
  decide

/-- Title matching is `strcmp(..) == 0`, that is equality of the two byte strings: a
proper extension of the configured title does not match. -/
theorem title_extension_differs (title rest : CString) (h : rest ≠ []) :
    strcmp (title ++ rest) title ≠ 0 := by
  rw [Ne, strcmp_eq_zero_iff]
  intro he
  have := congrArg List.length he
  simp at this
  exact h this

/-! ## The scenario Other, Target, moved, destroyed -/

/-- A destroy notification for the tracked and focused window: BLUR, then DETACH. -/
theorem destroy_focused (os : WinOS) (g : Globals) (hnull : os.null_is_no_window)
    (ht : g.target_info.hwnd ≠ NULL) (hf : g.target_info.is_focused = true) :
    types (hook_proc os EVENT_OBJECT_DESTROY g.target_info.hwnd OBJID_WINDOW CHILDID_SELF
      g).emitted = types g.emitted ++ [OW_BLUR, OW_DETACH] := by
  have hh : os.IsHungAppWindow NULL = false := hnull.1
  have hne : ¬ g.target_info.hwnd = 0 := ht
  simp only [hook_proc, if_pos, and_self, check_and_handle_window]
  simp [hh, hne, check_and_handle_window_release, hf, ow_emit_event,
    attach_no_title os NULL _ (Or.inl (get_title_null os hnull)), types]

/-- C3, as the code has it: with configured title "Target", from the initial globals, a
validated foreground change to a window titled "Other", a validated foreground change to a
non-hung window W titled "Target" whose thread id and bounds are obtainable, a
location-change notification for W with obtainable bounds, and a destroy notification for
W produce exactly ATTACH, FOCUS, MOVERESIZE, BLUR, DETACH. -/
theorem scenario_attach_move_destroy (os1 os2 os3 os4 : WinOS) (O W : HWND)
    (o1 c1 o2 c2 : LONG)
    (hW : W ≠ NULL)
    (hv1 : os1.GetForegroundWindow = O ∨ MSAA_check_window_focused_state os1 O = true)
    (ht1 : get_title os1 O = some (some title_Other))
    (hv2 : os2.GetForegroundWindow = W ∨ MSAA_check_window_focused_state os2 W = true)
    (hh2 : os2.IsHungAppWindow W = false)
    (ht2 : get_title os2 W = some (some title_Target))
    (hth2 : os2.GetWindowThreadProcessId W ≠ 0)
    (hb2 : (get_content_bounds os2 W).isSome = true)
    (hb3 : (get_content_bounds os3 W).isSome = true)
    (h4 : os4.null_is_no_window) :
    types (run (initial title_Target)
      [(os1, .hook EVENT_SYSTEM_FOREGROUND O o1 c1),
       (os2, .hook EVENT_SYSTEM_FOREGROUND W o2 c2),
       (os3, .hook EVENT_OBJECT_LOCATIONCHANGE W OBJID_WINDOW CHILDID_SELF),
       (os4, .hook EVENT_OBJECT_DESTROY W OBJID_WINDOW CHILDID_SELF)]).emitted =
      [OW_ATTACH, OW_FOCUS, OW_MOVERESIZE, OW_BLUR, OW_DETACH] := by
  -- first callback: "Other" is not the target
  have s1 : ∃ g1, step (initial title_Target) (os1, .hook EVENT_SYSTEM_FOREGROUND O o1 c1) = g1 ∧
      g1.emitted = [] ∧ g1.target_info = (initial title_Target).target_info := by
    obtain ⟨g0, h0, he, ht⟩ := handle_new_foreground_cases os1 O (initial title_Target)
    have hstep : step (initial title_Target) (os1, .hook EVENT_SYSTEM_FOREGROUND O o1 c1) =
        check_and_handle_window os1 O g0 := by
      rw [← h0]
      simp only [step, hook_proc]
      rcases hv1 with hv | hv <;> simp [hv]
    refine ⟨_, rfl, ?_⟩
    rw [hstep]
    have hk : check_and_handle_window os1 O g0 = g0 := by
      by_cases hh : os1.IsHungAppWindow O = true
      · simp [check_and_handle_window, hh]
      · exact (reconcile_from_untracked os1 O g0 (by rw [ht]; rfl) (by simpa using hh)).1
          (Or.inr (Or.inr ⟨title_Other, ht1, by rw [ht]; decide⟩))
    rw [hk]
    exact ⟨he, ht⟩
  obtain ⟨g1, e1, hg1e, hg1t⟩ := s1
  -- second callback: W is attached and focused
  have s2 : ∃ g2, step g1 (os2, .hook EVENT_SYSTEM_FOREGROUND W o2 c2) = g2 ∧
      types g2.emitted = [OW_ATTACH, OW_FOCUS] ∧ g2.target_info.hwnd = W ∧
      g2.target_info.is_focused = true := by
    obtain ⟨g0, h0, he, ht⟩ := handle_new_foreground_cases os2 W g1
    have hstep : step g1 (os2, .hook EVENT_SYSTEM_FOREGROUND W o2 c2) =
        check_and_handle_window os2 W g0 := by
      rw [← h0]
      simp only [step, hook_proc]
      rcases hv2 with hv | hv <;> simp [hv]
    refine ⟨_, rfl, ?_⟩
    rw [hstep]
    obtain ⟨evs, h1, h2, h3, h4⟩ :=
      (reconcile_from_untracked os2 W g0 (by rw [ht, hg1t]; rfl) hh2).2
        (by rw [ht, hg1t]; exact ht2) hth2 hb2
    rw [h1, he, hg1e]
    exact ⟨by simpa using h2, h3, h4⟩
  obtain ⟨g2, e2, hg2e, hg2h, hg2f⟩ := s2
  -- third callback: W moved
  have s3 : ∃ g3, step g2 (os3, .hook EVENT_OBJECT_LOCATIONCHANGE W OBJID_WINDOW CHILDID_SELF)
      = g3 ∧ types g3.emitted = [OW_ATTACH, OW_FOCUS, OW_MOVERESIZE] ∧
      g3.target_info.hwnd = W ∧ g3.target_info.is_focused = true := by
    refine ⟨_, rfl, ?_⟩
    have hev : (EVENT_OBJECT_LOCATIONCHANGE : DWORD) ≠ EVENT_OBJECT_DESTROY := by decide
    simp only [step, hook_proc, if_neg hev, if_pos, hg2h, and_self]
    rcases handle_movesize_event_cases os3 g2 with ⟨hb, -⟩ | ⟨b, -, h⟩
    · rw [hg2h] at hb
      rw [hb] at hb3
      cases hb3
    · rw [h]
      refine ⟨?_, by simpa [ow_emit_event] using hg2h, by simpa [ow_emit_event] using hg2f⟩
      show types (g2.emitted ++ _) = _
      rw [types_append, hg2e]
      rfl
  obtain ⟨g3, e3, hg3e, hg3h, hg3f⟩ := s3
  -- fourth callback: W destroyed
  simp only [run, List.foldl]
  rw [e1, e2, e3]
  have hd := destroy_focused os4 g3 h4 (by rw [hg3h]; exact hW) hg3f
  rw [hg3h, hg3e] at hd
  simpa [step] using hd

/-- C3 on the desktop, windows 1 ("Other") and 2 ("Target"). -/
theorem scenario_attach_move_destroy_witness :
    types (run (initial title_Target) [foreground 1, foreground 2, moved 2, destroyed 2]).emitted
      = [OW_ATTACH, OW_FOCUS, OW_MOVERESIZE, OW_BLUR, OW_DETACH] :=
  scenario_attach_move_destroy (desktop 1) (desktop 2) (desktop 2) (desktop 1) 1 2
    OBJID_WINDOW CHILDID_SELF OBJID_WINDOW CHILDID_SELF (by decide) (Or.inl rfl) (by decide)
    (Or.inl rfl) rfl (by decide) (by decide) (by decide) (by decide) (desktop_null 1)

/-- C3 as stated fails: on the desktop, the run Other, Target, moved, destroyed emits a
BLUR before the DETACH, since the target is focused when it is destroyed. -/
theorem scenario_counterexample :
    types (run (initial title_Target) [foreground 1, foreground 2, moved 2, destroyed 2]).emitted
      = [OW_ATTACH, OW_FOCUS, OW_MOVERESIZE, OW_BLUR, OW_DETACH] ∧
    types (run (initial title_Target) [foreground 1, foreground 2, moved 2, destroyed 2]).emitted
      ≠ [OW_ATTACH, OW_FOCUS, OW_MOVERESIZE, OW_DETACH] := by
  decide

/-! ## The accessibility control cache -/

/-- The element that the loop of `ow_find_edit_controls` stores in slot `i`. -/
theorem store_spec (uia : UIA) (pFound : Ptr) (g : Globals)
    (hc : g.g_editElementsCount = 0 ∨ g.g_editElementsCount = 1 ∨ g.g_editElementsCount = 2) :
    (ow_find_edit_controls_store uia pFound g).g_editElementsCount = g.g_editElementsCount ∧
    (ow_find_edit_controls_store uia pFound g).target_info = g.target_info ∧
    (∀ i : Nat, (i : Int) < g.g_editElementsCount →
      g_pEditElements (ow_find_edit_controls_store uia pFound g) i =
        if FAILED (uia.GetElement pFound i).1 then NULL else (uia.GetElement pFound i).2) ∧
    (∀ i : Int, g.g_editElementsCount ≤ i →
      g_pEditElements (ow_find_edit_controls_store uia pFound g) i = g_pEditElements g i) := by
  rcases hc with h | h | h
  · simp [ow_find_edit_controls_store, h]
  · simp only [ow_find_edit_controls_store, h]
    refine ⟨by simp [List.range_succ, ow_find_edit_controls_store_one, set_g_pEditElements, h],
      by simp [List.range_succ, ow_find_edit_controls_store_one, set_g_pEditElements], ?_, ?_⟩
    · intro i hi
      have : i = 0 := by omega
      subst this
      simp [List.range_succ, ow_find_edit_controls_store_one, set_g_pEditElements,
        g_pEditElements]
    · intro i hi
      have h0 : i ≠ 0 := by omega
      simp [List.range_succ, ow_find_edit_controls_store_one, set_g_pEditElements,
        g_pEditElements, h0]
  · simp only [ow_find_edit_controls_store, h]
    refine ⟨by simp [List.range_succ, ow_find_edit_controls_store_one, set_g_pEditElements, h],
      by simp [List.range_succ, ow_find_edit_controls_store_one, set_g_pEditElements], ?_, ?_⟩
    · intro i hi
      have : i = 0 ∨ i = 1 := by omega
      rcases this with rfl | rfl <;>
        simp [List.range_succ, ow_find_edit_controls_store_one, set_g_pEditElements,
          g_pEditElements]
    · intro i hi
      have h0 : i ≠ 0 := by omega
      have h1 : i ≠ 1 := by omega
      simp [List.range_succ, ow_find_edit_controls_store_one, set_g_pEditElements,
        g_pEditElements, h0, h1]

/-- An index outside the cached range, or a null slot, makes both accessors fail. -/
theorem accessors_fail (uia : UIA) (g : Globals) (idx : Int) (buffer : Bool) (size : Int)
    (text : Option CString)
    (h : idx < 0 ∨ g.g_editElementsCount ≤ idx ∨ g_pEditElements g idx = NULL) :
    (ow_get_text_from_edit uia idx buffer size g).1 = 0 ∧
      ow_input_text_to_edit uia idx text g = 0 := by
  have h1 : idx < 0 ∨ idx ≥ g.g_editElementsCount ∨ g_pEditElements g idx = NULL ∨
      buffer = false ∨ size ≤ 0 := by
    rcases h with h | h | h
    · exact Or.inl h
    · exact Or.inr (Or.inl h)
    · exact Or.inr (Or.inr (Or.inl h))
  have h2 : idx < 0 ∨ idx ≥ g.g_editElementsCount ∨ g_pEditElements g idx = NULL ∨
      text = none := by
    rcases h with h | h | h
    · exact Or.inl h
    · exact Or.inr (Or.inl h)
    · exact Or.inr (Or.inr (Or.inl h))
  constructor
  · unfold ow_get_text_from_edit
    rw [if_pos h1]
  · unfold ow_input_text_to_edit
    rw [if_pos h2]

/-- What `ow_find_edit_controls` leaves behind when it reports `found = 1`. -/
theorem find_found (uia : UIA) (g : Globals) (n : Int)
    (h : (ow_find_edit_controls uia g).1 = ⟨1, n⟩) :
    ∃ pFound g3, (uia.get_Length pFound).2 = n ∧
      g3.g_editElementsCount = (if n > 2 then 2 else n) ∧
      g3.g_pEditElements0 = NULL ∧ g3.g_pEditElements1 = NULL ∧
      (ow_find_edit_controls uia g).2 = ow_find_edit_controls_store uia pFound g3 := by
  by_cases c1 : g.target_info.hwnd = NULL
  · simp [ow_find_edit_controls, c1] at h
  by_cases c2 : FAILED (init_ui_automation uia g).1 = true
  · simp [ow_find_edit_controls, c1, c2] at h
  by_cases c3 : FAILED (uia.ElementFromHandle (init_ui_automation uia g).2.target_info.hwnd).1
      = true ∨ (uia.ElementFromHandle (init_ui_automation uia g).2.target_info.hwnd).2 = NULL
  · simp [ow_find_edit_controls, c1, c2, c3] at h
  by_cases c4 : SUCCEEDED uia.CreatePropertyCondition.1 = true ∧
      uia.CreatePropertyCondition.2 ≠ NULL
  swap
  · simp [ow_find_edit_controls, c1, c2, c3, c4] at h
  by_cases c5 : SUCCEEDED (uia.FindAll
        (uia.ElementFromHandle (init_ui_automation uia g).2.target_info.hwnd).2
        uia.CreatePropertyCondition.2).1 = true ∧
      (uia.FindAll (uia.ElementFromHandle (init_ui_automation uia g).2.target_info.hwnd).2
        uia.CreatePropertyCondition.2).2 ≠ NULL
  swap
  · simp [ow_find_edit_controls, c1, c2, c3, c4, c5] at h
  by_cases c6 : SUCCEEDED (uia.get_Length (uia.FindAll
        (uia.ElementFromHandle (init_ui_automation uia g).2.target_info.hwnd).2
        uia.CreatePropertyCondition.2).2).1 = true
  swap
  · simp [ow_find_edit_controls, c1, c2, c3, c4, c5, c6] at h
  have hlen : (uia.get_Length (uia.FindAll
        (uia.ElementFromHandle (init_ui_automation uia g).2.target_info.hwnd).2
        uia.CreatePropertyCondition.2).2).2 = n := by
    simpa [ow_find_edit_controls, c1, c2, c3, c4, c5, c6] using h
  refine ⟨(uia.FindAll (uia.ElementFromHandle (init_ui_automation uia g).2.target_info.hwnd).2
      uia.CreatePropertyCondition.2).2,
    { (init_ui_automation uia g).2 with
      g_pEditElements0 := NULL, g_pEditElements1 := NULL,
      g_editElementsCount := if n > 2 then 2 else n }, hlen, rfl, rfl, rfl, ?_⟩
  simp only [ow_find_edit_controls, if_neg c1, if_neg c2, if_neg c3, if_pos c4, if_pos c5,
    if_pos c6, hlen]

/-- C8: once `ow_find_edit_controls` has reported `found = 1` and `count = n` with
`n ≥ 0`, the cache counts `min n 2` slots (the reported count stays `n`), each slot
below that count holds what `GetElement` delivered for its index (null when the fetch
failed), every slot from that count on is null, and `ow_get_text_from_edit` and
`ow_input_text_to_edit` return 0 for every index that is negative or at least 2, whatever
the accessibility answers and the other arguments. -/
theorem find_caches_two (uia : UIA) (g : Globals) (n : Int) (hn : 0 ≤ n)
    (h : (ow_find_edit_controls uia g).1 = ⟨1, n⟩) :
    (ow_find_edit_controls uia g).1.count = n ∧
    (ow_find_edit_controls uia g).2.g_editElementsCount = min n 2 ∧
    (∃ pFound, ∀ i : Nat, (i : Int) < min n 2 →
      g_pEditElements (ow_find_edit_controls uia g).2 i =
        if FAILED (uia.GetElement pFound i).1 then NULL else (uia.GetElement pFound i).2) ∧
    (∀ i : Int, min n 2 ≤ i → g_pEditElements (ow_find_edit_controls uia g).2 i = NULL) ∧
    (∀ (answers : UIA) (idx : Int) (buffer : Bool) (size : Int) (text : Option CString),
      idx < 0 ∨ 2 ≤ idx →
      (ow_get_text_from_edit answers idx buffer size (ow_find_edit_controls uia g).2).1 = 0 ∧
      ow_input_text_to_edit answers idx text (ow_find_edit_controls uia g).2 = 0) := by
  obtain ⟨pFound, g3, -, hc, h0, h1, hg⟩ := find_found uia g n h
  have hmin : (if n > 2 then 2 else n) = min n 2 := by
    split_ifs with h2
    · exact (min_eq_right (le_of_lt h2)).symm
    · exact (min_eq_left (not_lt.mp h2)).symm
  rw [hmin] at hc
  have hcases : g3.g_editElementsCount = 0 ∨ g3.g_editElementsCount = 1 ∨
      g3.g_editElementsCount = 2 := by
    rw [hc]
    rcases le_total n 2 with h2 | h2
    · rw [min_eq_left h2]; omega
    · rw [min_eq_right h2]; omega
  obtain ⟨s1, -, s3, s4⟩ := store_spec uia pFound g3 hcases
  rw [hg]
  refine ⟨by rw [h], by rw [s1, hc], ⟨pFound, ?_⟩, ?_, ?_⟩
  · intro i hi
    exact s3 i (by rw [hc]; exact hi)
  · intro i hi
    rw [s4 i (by rw [hc]; exact hi)]
    simp [g_pEditElements, h0, h1]
  · intro answers idx buffer size text hidx
    apply accessors_fail
    rcases hidx with hneg | hbig
    · exact Or.inl hneg
    · right; left
      rw [s1, hc]
      exact le_trans (min_le_right n 2) hbig

/-- C8 with five edit controls under the tracked window 2: the count reported is 5, two
slots are cached, and index 2 fails. -/
theorem find_caches_two_witness :
    (0 : Int) ≤ 5 ∧ (ow_find_edit_controls five_edits tracking_2).1 = ⟨1, 5⟩ ∧
    (ow_find_edit_controls five_edits tracking_2).2.g_editElementsCount = 2 ∧
    (ow_get_text_from_edit five_edits 2 true 16 (ow_find_edit_controls five_edits tracking_2).2).1
      = 0 :=
  ⟨by decide, by decide,
    (find_caches_two five_edits tracking_2 5 (by decide) (by decide)).2.1,
    ((find_caches_two five_edits tracking_2 5 (by decide) (by decide)).2.2.2.2
      five_edits 2 true 16 none (Or.inr (le_refl 2))).1⟩

/-- C9, as the code has it: while no target is tracked, `ow_find_edit_controls` returns
`found = 0`, `count = 0` at once and touches nothing; `ow_get_text_from_edit` and
`ow_input_text_to_edit` return 0 for every index that is negative, not below the cached
count, or whose slot is null, so for every index while the cache is empty. -/
theorem registry_without_target (uia : UIA) (g : Globals) (h : g.target_info.hwnd = NULL) :
    ow_find_edit_controls uia g = (⟨0, 0⟩, g) ∧
    (∀ (idx : Int) (buffer : Bool) (size : Int) (text : Option CString),
      idx < 0 ∨ g.g_editElementsCount ≤ idx ∨ g_pEditElements g idx = NULL →
      (ow_get_text_from_edit uia idx buffer size g).1 = 0 ∧
      ow_input_text_to_edit uia idx text g = 0) := by
  refine ⟨?_, fun idx buffer size text hi => accessors_fail uia g idx buffer size text hi⟩
  unfold ow_find_edit_controls
  simp [h]

/-- C9 at the initial globals: nothing is tracked, the lookup fails and index 0 fails. -/
theorem registry_without_target_witness :
    (initial title_Target).target_info.hwnd = NULL ∧
    ow_find_edit_controls five_edits (initial title_Target) = (⟨0, 0⟩, initial title_Target) ∧
    (ow_get_text_from_edit five_edits 0 true 16 (initial title_Target)).1 = 0 ∧
    ow_input_text_to_edit five_edits 0 (some [104, 105]) (initial title_Target) = 0 :=
  ⟨rfl, (registry_without_target five_edits (initial title_Target) rfl).1,
    (registry_without_target five_edits (initial title_Target) rfl).2 0 true 16
      (some [104, 105]) (Or.inr (Or.inl (le_refl 0)))⟩

/-- C9 as stated fails for the two accessors: after the edit controls of window 2 were
cached and window 2 was destroyed, no target is tracked, and yet reading slot 0 and
writing slot 1 succeed. -/
theorem registry_counterexample :
    stale_cache.target_info.hwnd = NULL ∧
    ow_get_text_from_edit five_edits 0 true 16 stale_cache = (1, some [104, 105]) ∧
    ow_input_text_to_edit five_edits 1 (some [104]) stale_cache = 1 := by
  decide

/-! ## The foreground timer and the foreground notifications -/

/-- A foreground-change or minimize-end notification is accepted by `hook_proc` exactly
when the two-tier validator of the specification accepts its window. -/
theorem hook_proc_foreground (os : WinOS) (event : DWORD) (hwnd : HWND)
    (idObject idChild : LONG) (g : Globals)
    (hev : event = EVENT_SYSTEM_FOREGROUND ∨ event = EVENT_SYSTEM_MINIMIZEEND) :
    hook_proc os event hwnd idObject idChild g =
      if spec_focus_validator os hwnd then handle_new_foreground os hwnd g else g := by
  have h1 : event ≠ EVENT_OBJECT_DESTROY := by rcases hev with rfl | rfl <;> decide
  have h2 : event ≠ EVENT_OBJECT_LOCATIONCHANGE := by rcases hev with rfl | rfl <;> decide
  have h3 : event ≠ EVENT_OBJECT_NAMECHANGE := by rcases hev with rfl | rfl <;> decide
  simp only [hook_proc, if_neg h1, if_neg h2, if_neg h3, if_pos hev, spec_focus_validator]
  by_cases ha : os.GetForegroundWindow = hwnd
  · simp [ha]
  · by_cases hb : MSAA_check_window_focused_state os hwnd = true <;> simp [ha, hb]

/-- C11, as the code has it. Let F be the system foreground window, differing from the
last-known foreground. A foreground-change (or minimize-end) notification, for any window,
is accepted by `hook_proc` if and only if the two-tier Focus Validator accepts that window,
and then runs `handle_new_foreground`; for F itself tier (a) agrees, so it is always
accepted. A timer tick accepts F if and only if the accessible root of F reports the
focused state (tier (b) alone), and then runs `handle_new_foreground(F)`. So the tick has
the effect of a notification for F when the accessible root of F reports the focused
state, and no effect at all otherwise. -/
theorem timer_tick_effect (os : WinOS) (event : DWORD) (idObject idChild : LONG) (g : Globals)
    (hev : event = EVENT_SYSTEM_FOREGROUND ∨ event = EVENT_SYSTEM_MINIMIZEEND)
    (hF : g.foreground_window ≠ os.GetForegroundWindow) :
    (∀ hwnd, hook_proc os event hwnd idObject idChild g =
      if spec_focus_validator os hwnd then handle_new_foreground os hwnd g else g) ∧
    hook_proc os event os.GetForegroundWindow idObject idChild g =
      handle_new_foreground os os.GetForegroundWindow g ∧
    foreground_timer_proc os g =
      (if MSAA_check_window_focused_state os os.GetForegroundWindow then
        handle_new_foreground os os.GetForegroundWindow g
      else g) ∧
    (MSAA_check_window_focused_state os os.GetForegroundWindow = true →
      foreground_timer_proc os g =
        hook_proc os event os.GetForegroundWindow idObject idChild g) ∧
    (MSAA_check_window_focused_state os os.GetForegroundWindow = false →
      foreground_timer_proc os g = g) := by
  have hn : hook_proc os event os.GetForegroundWindow idObject idChild g =
      handle_new_foreground os os.GetForegroundWindow g := by
    rw [hook_proc_foreground os event _ idObject idChild g hev]
    simp [spec_focus_validator]
  have ht : foreground_timer_proc os g =
      (if MSAA_check_window_focused_state os os.GetForegroundWindow then
        handle_new_foreground os os.GetForegroundWindow g
      else g) := by
    unfold foreground_timer_proc
    by_cases hb : MSAA_check_window_focused_state os os.GetForegroundWindow = true <;>
      simp [hF, hb]
  refine ⟨fun hwnd => hook_proc_foreground os event hwnd idObject idChild g hev, hn, ht,
    ?_, ?_⟩
  · intro hb
    rw [ht, hn, if_pos hb]
  · intro hb
    rw [ht, hb]
    rfl

/-- C11 on the desktop whose windows report the focused state, window 2 in the foreground
and nothing known yet: the tick attaches and focuses window 2, as the notification does. -/
theorem timer_tick_effect_witness :
    (initial title_Target).foreground_window ≠ (desktop_focused 2).GetForegroundWindow ∧
    MSAA_check_window_focused_state (desktop_focused 2) (desktop_focused 2).GetForegroundWindow
      = true ∧
    types (foreground_timer_proc (desktop_focused 2) (initial title_Target)).emitted
      = [OW_ATTACH, OW_FOCUS] ∧
    foreground_timer_proc (desktop_focused 2) (initial title_Target) =
      hook_proc (desktop_focused 2) EVENT_SYSTEM_FOREGROUND (desktop_focused 2).GetForegroundWindow
        OBJID_WINDOW CHILDID_SELF (initial title_Target) :=
  ⟨by decide, by decide, by decide,
    (timer_tick_effect (desktop_focused 2) EVENT_SYSTEM_FOREGROUND OBJID_WINDOW CHILDID_SELF
      (initial title_Target) (Or.inl rfl) (by decide)).2.2.2.1 (by decide)⟩

/-- C11 as stated fails: on the desktop, window 2 is the system foreground, it differs
from the last-known foreground (none yet), and the two-tier validator accepts it by tier
(a); its accessible root does not report the focused state. The notification for window 2
attaches and focuses it, the timer tick of the code does nothing, and the tick worded as in
the specification would have attached it. -/
theorem timer_tick_counterexample :
    (initial title_Target).foreground_window ≠ (desktop 2).GetForegroundWindow ∧
    spec_focus_validator (desktop 2) (desktop 2).GetForegroundWindow = true ∧
    MSAA_check_window_focused_state (desktop 2) (desktop 2).GetForegroundWindow = false ∧
    types (hook_proc (desktop 2) EVENT_SYSTEM_FOREGROUND (desktop 2).GetForegroundWindow
      OBJID_WINDOW CHILDID_SELF (initial title_Target)).emitted = [OW_ATTACH, OW_FOCUS] ∧
    (hook_proc (desktop 2) EVENT_SYSTEM_FOREGROUND (desktop 2).GetForegroundWindow
      OBJID_WINDOW CHILDID_SELF (initial title_Target)).target_info.hwnd = 2 ∧
    foreground_timer_proc (desktop 2) (initial title_Target) = initial title_Target ∧
    types (spec_timer_tick (desktop 2) (initial title_Target)).emitted = [OW_ATTACH, OW_FOCUS] ∧
    foreground_timer_proc (desktop 2) (initial title_Target) ≠
      hook_proc (desktop 2) EVENT_SYSTEM_FOREGROUND (desktop 2).GetForegroundWindow
        OBJID_WINDOW CHILDID_SELF (initial title_Target) := by
  decide

end OverlayWindow
